import Mathlib

/-!
# Pseudo character drivers (`ldd/custom_drivers`)

A shallow embedding of the pseudo character device drivers
`002pseudo_char_driver/pcd.c`, `003pseudo_char_driver_multiple/pcd_n.c` and
`004_pcd_platform_driver/pcd_platform_driver.c`, and the properties of their
I/O engine, permission gate, module start-up and probe/remove life cycle.

## Integer model

The drivers are built for the BeagleBone Black (AM335x, 32-bit ARM, ILP32):
`int`, `unsigned`, `size_t` and `ssize_t` are 32 bits wide, `loff_t` is a
signed 64-bit integer.  An expression mixing `loff_t` and `size_t` is
therefore evaluated in `loff_t`.  C integers are embedded as `Int`/`Nat` and
every conversion and every operation that can leave its type's range wraps
explicitly.

## Memory model

A device buffer is the list of its bytes.  A pointer into user space is
represented by what the kernel can reach behind it: the number of writable
bytes for the destination of a read, the readable bytes for the source of a
write.  An access outside a kernel buffer has no defined result and is
`none`.
-/

/-- One byte of device or user memory (`char`). -/
abbrev Byte := Fin 256

/-! ## C integer conversions (ILP32) -/

/-- Conversion to `int` (32-bit two's complement, wrapping). -/
def to_int (x : Int) : Int := (x + 2147483648) % 4294967296 - 2147483648

/-- Conversion to `loff_t` (`long long`, 64-bit two's complement, wrapping). -/
def to_loff_t (x : Int) : Int :=
  (x + 9223372036854775808) % 18446744073709551616 - 9223372036854775808

/-- Conversion to `size_t` (`unsigned int`, modulo 2^32). -/
def to_size_t (x : Int) : Nat := (x % 4294967296).toNat

/-- Conversion to `ssize_t` (`int` on ILP32). -/
def to_ssize_t (x : Int) : Int := to_int x

/-- Largest value of `int`. -/
def INT_MAX : Nat := 2147483647

/-- Number of values of `size_t`; a `size_t` argument `n` satisfies `n < SIZE_LIMIT`. -/
def SIZE_LIMIT : Nat := 4294967296

/-- Number of values of `unsigned`; device sizes satisfy `size < UINT_LIMIT`. -/
def UINT_LIMIT : Nat := 4294967296

/-- Range of `loff_t`. -/
def is_loff_t (x : Int) : Prop := -9223372036854775808 ≤ x ∧ x ≤ 9223372036854775807

instance (x : Int) : Decidable (is_loff_t x) := by
  unfold is_loff_t; infer_instance

/-! ## Kernel constants -/

/-- Error number `EINVAL` (`errno-base.h`). -/
def EINVAL : Int := 22
/-- Error number `ENOMEM` (`errno-base.h`). -/
def ENOMEM : Int := 12
/-- Error number `EFAULT` (`errno-base.h`). -/
def EFAULT : Int := 14

/-- Seek origin `SEEK_SET`. -/
def SEEK_SET : Int := 0
/-- Seek origin `SEEK_CUR`. -/
def SEEK_CUR : Int := 1
/-- Seek origin `SEEK_END`. -/
def SEEK_END : Int := 2

/-- Flag `FMODE_READ` of `file.f_mode`. -/
def FMODE_READ : Nat := 1
/-- Flag `FMODE_WRITE` of `file.f_mode`. -/
def FMODE_WRITE : Nat := 2

/-! ## User-space copies -/

/-- `copy_to_user(buff, src + off, n)`: `buff` is the number of writable bytes
behind the user pointer.  The result is the number of bytes that could not be
copied together with the bytes stored in user space; `none` when the source
range `[off, off + n)` does not lie inside the kernel buffer `src`. -/
def copy_to_user (buff : Nat) (src : List Byte) (off : Int) (n : Nat) :
    Option (Nat × List Byte) :=
  if 0 ≤ off ∧ off + (n : Int) ≤ (src.length : Int) then
    some (n - min n buff, (src.drop off.toNat).take (min n buff))
  else none

/-- `copy_from_user(dst + off, buff, n)`: `buff` is the readable bytes behind
the user pointer.  The result is the number of bytes that could not be copied
together with the kernel buffer after the copy (the part of the destination
that could not be filled is zeroed, as `copy_from_user` documents); `none`
when the destination range `[off, off + n)` does not lie inside `dst`. -/
def copy_from_user (dst : List Byte) (off : Int) (buff : List Byte) (n : Nat) :
    Option (Nat × List Byte) :=
  if 0 ≤ off ∧ off + (n : Int) ≤ (dst.length : Int) then
    some (n - min n buff.length,
      dst.take off.toNat ++ (buff.take (min n buff.length)
        ++ List.replicate (n - min n buff.length) 0) ++ dst.drop (off.toNat + n))
  else none

/-! ## Results of the file operations -/

/-- What `pcd_lseek` leaves behind: its return value and `filp->f_pos`. -/
structure lseek_out where
  ret : Int
  f_pos : Int
deriving DecidableEq, Repr

/-- What `pcd_read` leaves behind: its return value, `*f_pos`, the bytes it
stored in the caller's buffer and the device buffer. -/
structure read_out where
  ret : Int
  f_pos : Int
  user : List Byte
  buffer : List Byte
deriving DecidableEq, Repr

/-- What `pcd_write` leaves behind: its return value, `*f_pos` and the device
buffer. -/
structure write_out where
  ret : Int
  f_pos : Int
  buffer : List Byte
deriving DecidableEq, Repr

/-! ## `004_pcd_platform_driver/pcd_platform_driver.c` -/

namespace PcdPlatform

/-- Number of device numbers the platform driver reserves. -/
def MAX_DEV_SUPPORT : Nat := 10

/-- Modelled from the spec: `struct pcdev_platform_data` of the header
`platform.h`, which is not part of the sources.  The driver reads the fields
`size`, `perm` and `serial_number`; the capacity is an unsigned 32-bit value
and the permission is the integer tag the permission gate compares. -/
structure pcdev_platform_data where
  size : Nat
  perm : Int
  serial_number : String
deriving DecidableEq, Repr

/-- The part of `struct cdev` the driver and `cdev_add` write: whether
`cdev_init` bound it to `pcd_fops`, whether the owner is set, and the device
number and count given to `cdev_add`. -/
structure cdev where
  ops : Bool
  owner : Bool
  dev : Nat
  count : Nat
deriving DecidableEq, Repr

/-- Device private data (`struct pcdev_priv_data`).  `buffer` is `none` for a
null pointer and the block it points to otherwise. -/
structure pcdev_priv_data where
  pdata : pcdev_platform_data
  buffer : Option (List Byte)
  dev_num : Nat
  cdev : cdev
deriving DecidableEq, Repr

/-- File operation `pcd_lseek (filp, off, whence)`; `pcdev_d` is the record
`filp->private_data` points to and `f_pos` is `filp->f_pos`. -/
def pcd_lseek (pcdev_d : pcdev_priv_data) (f_pos : Int) (off : Int) (whence : Int) :
    lseek_out :=
  let max_size : Int := to_int pcdev_d.pdata.size
  if whence = SEEK_SET then
    if off > max_size ∨ off < 0 then ⟨-EINVAL, f_pos⟩
    else ⟨off, off⟩
  else if whence = SEEK_CUR then
    let temp : Int := to_loff_t (f_pos + off)
    if temp > max_size ∨ temp < 0 then ⟨-EINVAL, f_pos⟩
    else ⟨temp, temp⟩
  else if whence = SEEK_END then
    let temp : Int := to_loff_t (max_size + off)
    if temp > max_size ∨ temp < 0 then ⟨-EINVAL, f_pos⟩
    else ⟨temp, temp⟩
  else ⟨-EINVAL, f_pos⟩

/-- File operation `pcd_read (filp, buff, count, f_pos)`; `pcdev_d` is the
record `filp->private_data` points to, `buff` the number of writable bytes
behind the user pointer. -/
def pcd_read (pcdev_d : pcdev_priv_data) (buff : Nat) (count : Nat) (f_pos : Int) :
    Option read_out :=
  let max_size : Int := to_int pcdev_d.pdata.size
  let count : Nat :=
    if to_loff_t (f_pos + count) > max_size then to_size_t (to_loff_t (max_size - f_pos))
    else count
  match pcdev_d.buffer with
  | none => none
  | some mem =>
    match copy_to_user buff mem f_pos count with
    | none => none
    | some (uncopied, user) =>
      if uncopied ≠ 0 then some ⟨-EFAULT, f_pos, user, mem⟩
      else some ⟨to_ssize_t count, to_loff_t (f_pos + count), user, mem⟩

/-- File operation `pcd_write (filp, buff, count, f_pos)`; `pcdev_d` is the
record `filp->private_data` points to, `buff` the readable bytes behind the
user pointer. -/
def pcd_write (pcdev_d : pcdev_priv_data) (buff : List Byte) (count : Nat) (f_pos : Int) :
    Option write_out :=
  let max_size : Int := to_int pcdev_d.pdata.size
  let count : Nat :=
    if to_loff_t (f_pos + count) > max_size then to_size_t (to_loff_t (max_size - f_pos))
    else count
  match pcdev_d.buffer with
  | none => none
  | some mem =>
    if count = 0 then some ⟨-ENOMEM, f_pos, mem⟩
    else
      match copy_from_user mem f_pos buff count with
      | none => none
      | some (uncopied, mem1) =>
        if uncopied ≠ 0 then some ⟨-EFAULT, f_pos, mem1⟩
        else some ⟨to_ssize_t count, to_loff_t (f_pos + count), mem1⟩

end PcdPlatform

/-! ## `003pseudo_char_driver_multiple/pcd_n.c` -/

namespace PcdN

/-- Number of devices of the multi-device driver. -/
def MAX_DEV_SUPPORT : Nat := 4

/-- Permission tag `RDONLY`. -/
def RDONLY : Int := 0x01
/-- Permission tag `WRONLY`. -/
def WRONLY : Int := 0x10
/-- Permission tag `RDWR`. -/
def RDWR : Int := 0x11

/-- The part of `struct cdev` the driver and `cdev_add` write. -/
structure cdev where
  ops : Bool
  owner : Bool
  dev : Nat
  count : Nat
deriving DecidableEq, Repr

/-- Device private data (`struct pcdev_priv_data`).  `buffer` is `none` for a
null pointer and the block it points to otherwise; `size` is an `unsigned`. -/
structure pcdev_priv_data where
  buffer : Option (List Byte)
  size : Nat
  serial_num : String
  perm : Int
  cdev : cdev
deriving DecidableEq, Repr

/-- File operation `pcd_lseek (filp, off, whence)`; `pcdev_d` is the record
`filp->private_data` points to and `f_pos` is `filp->f_pos`. -/
def pcd_lseek (pcdev_d : pcdev_priv_data) (f_pos : Int) (off : Int) (whence : Int) :
    lseek_out :=
  let max_size : Int := to_int pcdev_d.size
  if whence = SEEK_SET then
    if off > max_size ∨ off < 0 then ⟨-EINVAL, f_pos⟩
    else ⟨off, off⟩
  else if whence = SEEK_CUR then
    let temp : Int := to_loff_t (f_pos + off)
    if temp > max_size ∨ temp < 0 then ⟨-EINVAL, f_pos⟩
    else ⟨temp, temp⟩
  else if whence = SEEK_END then
    let temp : Int := to_loff_t (max_size + off)
    if temp > max_size ∨ temp < 0 then ⟨-EINVAL, f_pos⟩
    else ⟨temp, temp⟩
  else ⟨-EINVAL, f_pos⟩

/-- File operation `pcd_read (filp, buff, count, f_pos)`; `pcdev_d` is the
record `filp->private_data` points to, `buff` the number of writable bytes
behind the user pointer. -/
def pcd_read (pcdev_d : pcdev_priv_data) (buff : Nat) (count : Nat) (f_pos : Int) :
    Option read_out :=
  let max_size : Int := to_int pcdev_d.size
  let count : Nat :=
    if to_loff_t (f_pos + count) > max_size then to_size_t (to_loff_t (max_size - f_pos))
    else count
  match pcdev_d.buffer with
  | none => none
  | some mem =>
    match copy_to_user buff mem f_pos count with
    | none => none
    | some (uncopied, user) =>
      if uncopied ≠ 0 then some ⟨-EFAULT, f_pos, user, mem⟩
      else some ⟨to_ssize_t count, to_loff_t (f_pos + count), user, mem⟩

/-- File operation `pcd_write (filp, buff, count, f_pos)`; `pcdev_d` is the
record `filp->private_data` points to, `buff` the readable bytes behind the
user pointer. -/
def pcd_write (pcdev_d : pcdev_priv_data) (buff : List Byte) (count : Nat) (f_pos : Int) :
    Option write_out :=
  let max_size : Int := to_int pcdev_d.size
  let count : Nat :=
    if to_loff_t (f_pos + count) > max_size then to_size_t (to_loff_t (max_size - f_pos))
    else count
  match pcdev_d.buffer with
  | none => none
  | some mem =>
    if count = 0 then some ⟨-ENOMEM, f_pos, mem⟩
    else
      match copy_from_user mem f_pos buff count with
      | none => none
      | some (uncopied, mem1) =>
        if uncopied ≠ 0 then some ⟨-EFAULT, f_pos, mem1⟩
        else some ⟨to_ssize_t count, to_loff_t (f_pos + count), mem1⟩

/-- Permission gate `check_permission (dev_perm, acc_mode)`; `acc_mode`
receives the bits of `filp->f_mode`. -/
def check_permission (dev_perm : Int) (acc_mode : Nat) : Int :=
  if dev_perm = RDWR then 0
  else if dev_perm = RDONLY ∧ (acc_mode &&& FMODE_READ ≠ 0 ∧ ¬ (acc_mode &&& FMODE_WRITE ≠ 0)) then 0
  else if dev_perm = WRONLY ∧ (¬ (acc_mode &&& FMODE_READ ≠ 0) ∧ acc_mode &&& FMODE_WRITE ≠ 0) then 0
  else -ENOMEM

/-- The fields of `struct inode` that `pcd_open` reads: the device number and,
for `i_cdev`, the device record that contains the character device. -/
structure inode where
  i_rdev : Nat
  i_cdev : pcdev_priv_data
deriving DecidableEq, Repr

/-- The fields of `struct file` the driver uses; `private_data` is `none` for
a null pointer. -/
structure file where
  f_mode : Nat
  f_pos : Int
  private_data : Option pcdev_priv_data
deriving DecidableEq, Repr

/-- File operation `pcd_open (inode, filp)`: the return value and the file
afterwards. -/
def pcd_open (inode : inode) (filp : file) : Int × file :=
  let pcdev_d := inode.i_cdev
  let filp := { filp with private_data := some pcdev_d }
  let ret := check_permission pcdev_d.perm filp.f_mode
  (ret, filp)

end PcdN

namespace PcdPlatform

/-- Modelled from the spec: permission tag `RDONLY` of the header `platform.h`,
which is not part of the sources; the value is the one `pcd_n.c` defines. -/
def RDONLY : Int := 0x01
/-- Modelled from the spec: permission tag `WRONLY` of the header `platform.h`,
which is not part of the sources; the value is the one `pcd_n.c` defines. -/
def WRONLY : Int := 0x10
/-- Modelled from the spec: permission tag `RDWR` of the header `platform.h`,
which is not part of the sources; the value is the one `pcd_n.c` defines. -/
def RDWR : Int := 0x11

/-- Permission gate `check_permission (dev_perm, acc_mode)`; `acc_mode`
receives the bits of `filp->f_mode`. -/
def check_permission (dev_perm : Int) (acc_mode : Nat) : Int :=
  if dev_perm = RDWR then 0
  else if dev_perm = RDONLY ∧ (acc_mode &&& FMODE_READ ≠ 0 ∧ ¬ (acc_mode &&& FMODE_WRITE ≠ 0)) then 0
  else if dev_perm = WRONLY ∧ (¬ (acc_mode &&& FMODE_READ ≠ 0) ∧ acc_mode &&& FMODE_WRITE ≠ 0) then 0
  else -ENOMEM

/-- The fields of `struct inode` a character driver can read: the device
number and, for `i_cdev`, the device record that contains the character
device. -/
structure inode where
  i_rdev : Nat
  i_cdev : pcdev_priv_data
deriving DecidableEq, Repr

/-- The fields of `struct file` the driver uses; `private_data` is `none` for
a null pointer. -/
structure file where
  f_mode : Nat
  f_pos : Int
  private_data : Option pcdev_priv_data
deriving DecidableEq, Repr

/-- File operation `pcd_open (inode, filp)`: the return value and the file
afterwards.  The body is `return 0;`. -/
def pcd_open (_inode : inode) (filp : file) : Int × file :=
  (0, filp)

/-! ### Probe and remove -/

/-- Driver private data (`struct pcdrv_priv_data`); the two pointers are kept
as their integer values. -/
structure pcdrv_priv_data where
  total_devs : Int
  device_num_base : Nat
  class_pcd : Int
  device_pcd : Int
deriving DecidableEq, Repr

/-- A device-managed allocation (`devm_kzalloc`) that has not been freed:
either a device record or a device buffer of the given length. -/
inductive devres_node where
  | dev_data : devres_node
  | buffer (size : Nat) : devres_node
deriving DecidableEq, Repr

/-- The fields of `struct platform_device` the driver uses: `id`,
`dev.platform_data` and `dev.driver_data` (`none` for a null pointer,
otherwise the record pointed to) and the managed allocations attached to
`dev`.  Whether the memory behind `driver_data` is still allocated is told by
`devres`. -/
structure platform_device where
  id : Int
  platform_data : Option pcdev_platform_data
  driver_data : Option pcdev_priv_data
  devres : List devres_node
deriving DecidableEq, Repr

/-- Everything outside the platform device that probe and remove read or
write: the driver's `pcdrv_data`, the device numbers that have a character
device added (`cdev_add`), and the device files created in the class
(`device_create`), each with its device number and name. -/
structure driver_state where
  pcdrv_data : pcdrv_priv_data
  cdevs : List Nat
  devices : List (Nat × String)
deriving DecidableEq, Repr

/-- What the kernel answers during one call of probe: whether the two
`devm_kzalloc` calls succeed, the return value of `cdev_add`, and the pointer
value `device_create` returns. -/
structure probe_env where
  kzalloc_dev_data : Bool
  kzalloc_buffer : Bool
  cdev_add : Int
  device_create : Int
deriving DecidableEq, Repr

/-- Conversion to `dev_t` (unsigned 32-bit). -/
def to_dev_t (x : Int) : Nat := (x % 4294967296).toNat

/-- Kernel macro `IS_ERR`: the pointer value lies in the last 4095 addresses. -/
def IS_ERR (p : Int) : Bool := decide (-4095 ≤ p ∧ p < 0)

/-- Kernel function `device_destroy (class, devt)`: unregisters the device
file of the class that has this device number, if there is one. -/
def device_destroy (devices : List (Nat × String)) (devt : Nat) : List (Nat × String) :=
  match devices with
  | [] => []
  | d :: ds => if d.1 = devt then ds else d :: device_destroy ds devt

/-- Kernel function `cdev_del`: removes the character device that was added
under this device number. -/
def cdev_del (cdevs : List Nat) (dev : Nat) : List Nat :=
  cdevs.erase dev

/-- Kernel function `devm_kfree`: releases one managed allocation. -/
def devm_kfree (devres : List devres_node) (node : devres_node) : List devres_node :=
  devres.erase node

/-- The result of a probe or remove call: the return value, the driver and
kernel state, and the platform device afterwards. -/
structure lifecycle_out where
  ret : Int
  st : driver_state
  pdev : platform_device
deriving DecidableEq, Repr

/-- Platform driver callback `pcd_platform_driver_remove (pdev)`; `none` when
`dev_get_drvdata` is null and `dev_data->dev_num` dereferences it. -/
def pcd_platform_driver_remove (st : driver_state) (pdev : platform_device) :
    Option lifecycle_out :=
  match pdev.driver_data with
  | none => none
  | some dev_data =>
    let devices := device_destroy st.devices dev_data.dev_num
    let cdevs := cdev_del st.cdevs dev_data.cdev.dev
    let pcdrv_data := { st.pcdrv_data with total_devs := to_int (st.pcdrv_data.total_devs - 1) }
    some ⟨0, ⟨pcdrv_data, cdevs, devices⟩, pdev⟩

/-- Platform driver callback `pcd_platform_driver_probe (pdev)`. -/
def pcd_platform_driver_probe (env : probe_env) (st : driver_state) (pdev : platform_device) :
    lifecycle_out :=
  match pdev.platform_data with
  | none => ⟨-EINVAL, st, pdev⟩
  | some pdata =>
    if ¬ env.kzalloc_dev_data then ⟨-ENOMEM, st, pdev⟩
    else
      let devres := devres_node.dev_data :: pdev.devres
      let dev_data : pcdev_priv_data :=
        { pdata := ⟨pdata.size, pdata.perm, pdata.serial_number⟩
          buffer := none, dev_num := 0, cdev := ⟨false, false, 0, 0⟩ }
      if ¬ env.kzalloc_buffer then
        let devres := devm_kfree devres devres_node.dev_data
        ⟨-ENOMEM, st, { pdev with driver_data := some dev_data, devres := devres }⟩
      else
        let devres := devres_node.buffer dev_data.pdata.size :: devres
        let dev_data := { dev_data with buffer := some (List.replicate dev_data.pdata.size 0) }
        let dev_data := { dev_data with
          dev_num := to_dev_t (st.pcdrv_data.device_num_base + pdev.id) }
        let dev_data := { dev_data with cdev := ⟨true, true, dev_data.dev_num, 1⟩ }
        let ret := env.cdev_add
        if ret < 0 then
          let devres := devm_kfree devres (devres_node.buffer dev_data.pdata.size)
          let devres := devm_kfree devres devres_node.dev_data
          ⟨ret, st, { pdev with driver_data := some dev_data, devres := devres }⟩
        else
          let cdevs := dev_data.dev_num :: st.cdevs
          let pcdrv_data := { st.pcdrv_data with device_pcd := env.device_create }
          if IS_ERR pcdrv_data.device_pcd then
            let ret := to_int pcdrv_data.device_pcd
            let cdevs := cdev_del cdevs dev_data.cdev.dev
            let devres := devm_kfree devres (devres_node.buffer dev_data.pdata.size)
            let devres := devm_kfree devres devres_node.dev_data
            ⟨ret, ⟨pcdrv_data, cdevs, st.devices⟩,
              { pdev with driver_data := some dev_data, devres := devres }⟩
          else
            let devices := (dev_data.dev_num, "pcdev-" ++ toString pdev.id) :: st.devices
            let pcdrv_data := { pcdrv_data with total_devs := to_int (pcdrv_data.total_devs + 1) }
            ⟨0, ⟨pcdrv_data, cdevs, devices⟩,
              { pdev with driver_data := some dev_data, devres := devres }⟩

end PcdPlatform

/-! ## Sequences of calls on one open file -/

namespace PcdPlatform

/-- One call of a file operation that moves data: a read into a user buffer
with `buff` writable bytes, or a write from a user buffer holding the bytes
`buff`; `count` is the requested length. -/
inductive io_call where
  | read (buff : Nat) (count : Nat) : io_call
  | write (buff : List Byte) (count : Nat) : io_call
deriving DecidableEq, Repr

/-- The requested length of a call. -/
def io_call.count : io_call → Nat
  | io_call.read _ count => count
  | io_call.write _ count => count

/-- Runs the calls in order on one open file of the device `pcdev_d`, starting
at file position `f_pos`, and lists the file position after each call; `none`
when a call has no defined result. -/
def run_calls (pcdev_d : pcdev_priv_data) (f_pos : Int) : List io_call → Option (List Int)
  | [] => some []
  | io_call.read buff count :: calls =>
    match pcd_read pcdev_d buff count f_pos with
    | none => none
    | some r => (run_calls pcdev_d r.f_pos calls).map (fun t => r.f_pos :: t)
  | io_call.write buff count :: calls =>
    match pcd_write pcdev_d buff count f_pos with
    | none => none
    | some w =>
      (run_calls { pcdev_d with buffer := some w.buffer } w.f_pos calls).map
        (fun t => w.f_pos :: t)

end PcdPlatform

/-! ## The seek target of the specification -/

/-- The seek target as the specification words it: `offset` for an absolute
seek, `cursor + offset` for a relative one, `capacity + offset` for a seek
from the end, and no target for any other origin. -/
def seek_target (capacity cursor offset whence : Int) : Option Int :=
  if whence = SEEK_SET then some offset
  else if whence = SEEK_CUR then some (cursor + offset)
  else if whence = SEEK_END then some (capacity + offset)
  else none

/-! ## `002pseudo_char_driver/pcd.c` -/

namespace Pcd

/-- Size of the single device (`DEV_MEM_SIZE`). -/
def DEV_MEM_SIZE : Int := 512

/-- File operation `pcd_lseek (filp, off, whence)` of the single-device
driver; `f_pos` is `filp->f_pos`. -/
def pcd_lseek (f_pos : Int) (off : Int) (whence : Int) : lseek_out :=
  if whence = SEEK_SET then
    if off > DEV_MEM_SIZE ∨ off < 0 then ⟨-EINVAL, f_pos⟩
    else ⟨off, off⟩
  else if whence = SEEK_CUR then
    let temp : Int := to_loff_t (f_pos + off)
    if temp > DEV_MEM_SIZE ∨ temp < 0 then ⟨-EINVAL, f_pos⟩
    else ⟨temp, temp⟩
  else if whence = SEEK_END then
    let temp : Int := to_loff_t (DEV_MEM_SIZE + off)
    if temp > DEV_MEM_SIZE ∨ temp < 0 then ⟨-EINVAL, f_pos⟩
    else ⟨temp, temp⟩
  else ⟨-EINVAL, f_pos⟩

/-- File operation `pcd_read (filp, buff, count, f_pos)` of the single-device
driver; `device_buffer` is the global array, `buff` the number of writable
bytes behind the user pointer. -/
def pcd_read (device_buffer : List Byte) (buff : Nat) (count : Nat) (f_pos : Int) :
    Option read_out :=
  let count : Nat :=
    if to_loff_t (f_pos + count) > DEV_MEM_SIZE then
      to_size_t (to_loff_t (DEV_MEM_SIZE - f_pos))
    else count
  match copy_to_user buff device_buffer f_pos count with
  | none => none
  | some (uncopied, user) =>
    if uncopied ≠ 0 then some ⟨-EFAULT, f_pos, user, device_buffer⟩
    else some ⟨to_ssize_t count, to_loff_t (f_pos + count), user, device_buffer⟩

/-- File operation `pcd_write (filp, buff, count, f_pos)` of the single-device
driver; `device_buffer` is the global array, `buff` the readable bytes behind
the user pointer. -/
def pcd_write (device_buffer : List Byte) (buff : List Byte) (count : Nat) (f_pos : Int) :
    Option write_out :=
  let count : Nat :=
    if to_loff_t (f_pos + count) > DEV_MEM_SIZE then
      to_size_t (to_loff_t (DEV_MEM_SIZE - f_pos))
    else count
  if count = 0 then some ⟨-ENOMEM, f_pos, device_buffer⟩
  else
    match copy_from_user device_buffer f_pos buff count with
    | none => none
    | some (uncopied, mem1) =>
      if uncopied ≠ 0 then some ⟨-EFAULT, f_pos, mem1⟩
      else some ⟨to_ssize_t count, to_loff_t (f_pos + count), mem1⟩

end Pcd

/-! ## Driver data and module start-up of `pcd_n.c` -/

namespace PcdN

/-- Size of the buffer of device 0. -/
def DEV0_MEM_SIZE : Nat := 1024
/-- Size of the buffer of device 1. -/
def DEV1_MEM_SIZE : Nat := 512
/-- Size of the buffer of device 2. -/
def DEV2_MEM_SIZE : Nat := 2048
/-- Size of the buffer of device 3. -/
def DEV3_MEM_SIZE : Nat := 512

/-- Driver private data (`struct pcdrv_priv_data`); `pcdev_data` is the array
of `MAX_DEV_SUPPORT` device records, the two pointers are kept as their
integer values. -/
structure pcdrv_priv_data where
  total_devs : Int
  device_number : Nat
  pcdev_data : List pcdev_priv_data
  class_pcd : Int
  device_pcd : Int
deriving DecidableEq, Repr

/-- A zero-initialised `struct cdev`. -/
def cdev_zero : cdev := ⟨false, false, 0, 0⟩

/-- The global `pcdrv` as its initialiser leaves it: four devices, each with
its own zero-filled static buffer. -/
def pcdrv : pcdrv_priv_data :=
  { total_devs := MAX_DEV_SUPPORT
    device_number := 0
    pcdev_data :=
      [ { buffer := some (List.replicate DEV0_MEM_SIZE 0), size := DEV0_MEM_SIZE,
          serial_num := "PCDDEV0000", perm := RDONLY, cdev := cdev_zero },
        { buffer := some (List.replicate DEV1_MEM_SIZE 0), size := DEV1_MEM_SIZE,
          serial_num := "PCDDEV0001", perm := WRONLY, cdev := cdev_zero },
        { buffer := some (List.replicate DEV2_MEM_SIZE 0), size := DEV2_MEM_SIZE,
          serial_num := "PCDDEV0002", perm := RDWR, cdev := cdev_zero },
        { buffer := some (List.replicate DEV3_MEM_SIZE 0), size := DEV3_MEM_SIZE,
          serial_num := "PCDDEV0003", perm := RDWR, cdev := cdev_zero } ]
    class_pcd := 0
    device_pcd := 0 }

/-- What a write through an open file leaves behind in the driver: the return
value, the file position and the driver data. -/
structure device_write_out where
  ret : Int
  f_pos : Int
  drv : pcdrv_priv_data
deriving DecidableEq, Repr

/-- A `pcd_write` through a file that `pcd_open` bound to device `i`, that is
with `filp->private_data` pointing at `pcdrv.pcdev_data[i]`: the bytes go to
the buffer of that record.  `none` when there is no such device or the write
has no defined result. -/
def pcd_write_device (drv : pcdrv_priv_data) (i : Nat) (buff : List Byte) (count : Nat)
    (f_pos : Int) : Option device_write_out :=
  match drv.pcdev_data[i]? with
  | none => none
  | some pcdev_d =>
    match pcd_write pcdev_d buff count f_pos with
    | none => none
    | some w =>
      some ⟨w.ret, w.f_pos,
        { drv with pcdev_data := drv.pcdev_data.set i { pcdev_d with buffer := some w.buffer } }⟩

/-- Conversion to `dev_t` (unsigned 32-bit). -/
def to_dev_t (x : Int) : Nat := (x % 4294967296).toNat

/-- Kernel macro `IS_ERR`: the pointer value lies in the last 4095 addresses. -/
def IS_ERR (p : Int) : Bool := decide (-4095 ≤ p ∧ p < 0)

/-- A call into the kernel made by module start-up; the number is the index
`i` of the device the call is about. -/
inductive kernel_call where
  | alloc_chrdev_region : kernel_call
  | class_create : kernel_call
  | cdev_init (i : Nat) : kernel_call
  | cdev_add (i : Nat) : kernel_call
  | device_create (i : Nat) : kernel_call
  | device_destroy (i : Nat) : kernel_call
  | cdev_del (i : Nat) : kernel_call
  | class_destroy : kernel_call
  | unregister_chrdev_region : kernel_call
deriving DecidableEq, Repr

/-- What the kernel answers during module start-up: the return value of
`alloc_chrdev_region` and the first device number it hands out, the pointer
value `class_create` returns, and for each device index the return value of
`cdev_add` and the pointer value `device_create` returns. -/
structure init_env where
  alloc_chrdev_region : Int
  device_number : Nat
  class_create : Int
  cdev_add : Nat → Int
  device_create : Nat → Int

/-- The driver data together with what the kernel holds for the driver: the
reserved range of device numbers (first number and count), whether the class
exists, the device numbers that have a character device added, the device
files of the class, and the kernel calls made so far, oldest first. -/
structure module_state where
  pcdrv : pcdrv_priv_data
  region : Option (Nat × Nat)
  class_live : Bool
  cdevs : List Nat
  devices : List (Nat × String)
  calls : List kernel_call
deriving DecidableEq, Repr

/-- Kernel function `device_destroy (class, devt)`: unregisters the device
file of the class that has this device number, if there is one. -/
def device_destroy (devices : List (Nat × String)) (devt : Nat) : List (Nat × String) :=
  match devices with
  | [] => []
  | d :: ds => if d.1 = devt then ds else d :: device_destroy ds devt

/-- One round of the rollback loop for index `i`: `device_destroy` for the
device number of device `i`, then `cdev_del` for its character device. -/
def rollback_device (s : module_state) (i : Nat) : module_state :=
  let devt := to_dev_t (s.pcdrv.device_number + i)
  { s with
    devices := device_destroy s.devices devt
    cdevs := s.cdevs.erase devt
    calls := s.calls ++ [kernel_call.device_destroy i, kernel_call.cdev_del i] }

/-- The rollback loop `while (i >= 0)` of `pcd_driver_init`, entered with
index `i`: the rounds for `i`, `i - 1`, down to 0. -/
def rollback_loop (s : module_state) : Nat → module_state
  | 0 => rollback_device s 0
  | i + 1 => rollback_loop (rollback_device s (i + 1)) i

/-- Assignment to the fields of `pcdrv.pcdev_data[i].cdev`. -/
def update_cdev (drv : pcdrv_priv_data) (i : Nat) (f : cdev → cdev) : pcdrv_priv_data :=
  match drv.pcdev_data[i]? with
  | none => drv
  | some d => { drv with pcdev_data := drv.pcdev_data.set i { d with cdev := f d.cdev } }

/-- The set-up loop `while (i < MAX_DEV_SUPPORT)` of `pcd_driver_init`, entered
with index `i` and `n = MAX_DEV_SUPPORT - i` rounds to go.  The result is the
error value of the round that failed, if one did, the state, and the index at
which the loop was left.  `cdev_init` clears the character device of the round
and binds it to `pcd_fops`, the driver sets its owner, and `cdev_add` stores
the device number and the count in it; the character device of a round is kept
in `cdevs` and its device file in `devices`. -/
def setup_loop (env : init_env) (s : module_state) (i : Nat) :
    Nat → Option Int × module_state × Nat
  | 0 => (none, s, i)
  | n + 1 =>
    let devt := to_dev_t (s.pcdrv.device_number + i)
    let s := { s with
      pcdrv := update_cdev s.pcdrv i (fun _ => ⟨true, false, 0, 0⟩)
      calls := s.calls ++ [kernel_call.cdev_init i] }
    let s := { s with pcdrv := update_cdev s.pcdrv i (fun c => { c with owner := true }) }
    let ret := env.cdev_add i
    let s := { s with
      pcdrv := update_cdev s.pcdrv i (fun c => { c with dev := devt, count := 1 })
      calls := s.calls ++ [kernel_call.cdev_add i] }
    if ret < 0 then (some ret, s, i)
    else
      let s := { s with cdevs := devt :: s.cdevs }
      let s := { s with
        pcdrv := { s.pcdrv with device_pcd := env.device_create i }
        calls := s.calls ++ [kernel_call.device_create i] }
      if IS_ERR s.pcdrv.device_pcd then (some (to_int s.pcdrv.device_pcd), s, i)
      else
        let s := { s with devices := (devt, "pcdev-" ++ toString i) :: s.devices }
        setup_loop env s (i + 1) n

/-- Module start-up `pcd_driver_init`: the return value and the state
afterwards. -/
def pcd_driver_init (env : init_env) (s : module_state) : Int × module_state :=
  let ret := env.alloc_chrdev_region
  let s := { s with calls := s.calls ++ [kernel_call.alloc_chrdev_region] }
  if ret < 0 then (ret, s)
  else
    let s := { s with
      pcdrv := { s.pcdrv with device_number := env.device_number }
      region := some (env.device_number, MAX_DEV_SUPPORT) }
    let s := { s with
      pcdrv := { s.pcdrv with class_pcd := env.class_create }
      calls := s.calls ++ [kernel_call.class_create] }
    if IS_ERR s.pcdrv.class_pcd then
      let ret := to_int s.pcdrv.class_pcd
      (ret, { s with
        region := none
        calls := s.calls ++ [kernel_call.unregister_chrdev_region] })
    else
      let s := { s with class_live := true }
      match setup_loop env s 0 MAX_DEV_SUPPORT with
      | (none, s, _) => (0, s)
      | (some ret, s, i) =>
        let s := rollback_loop s i
        let s := { s with
          class_live := false
          calls := s.calls ++ [kernel_call.class_destroy] }
        let s := { s with
          region := none
          calls := s.calls ++ [kernel_call.unregister_chrdev_region] }
        (ret, s)

/-- The state in which the module is loaded: the initialised `pcdrv`, nothing
reserved or registered, no kernel call made. -/
def module_state_at_load : module_state :=
  { pcdrv := pcdrv, region := none, class_live := false, cdevs := [], devices := [], calls := [] }

end PcdN

/-! ## Module start-up and device life cycle of the platform driver -/

namespace PcdPlatform

/-- Range of `int`, the type of `platform_device.id`. -/
def is_int (x : Int) : Prop := -2147483648 ≤ x ∧ x ≤ 2147483647

instance (x : Int) : Decidable (is_int x) := by
  unfold is_int; infer_instance

/-- What the kernel answers during module start-up: the return value of
`alloc_chrdev_region` and the first device number it hands out, and the
pointer value `class_create` returns. -/
structure load_env where
  alloc_chrdev_region : Int
  device_num_base : Nat
  class_create : Int
deriving DecidableEq, Repr

/-- The result of module start-up: the return value, the driver and kernel
state, the reserved range of device numbers (first number and count), whether
the class exists and whether the platform driver is registered. -/
structure load_out where
  ret : Int
  st : driver_state
  region : Option (Nat × Nat)
  class_live : Bool
  driver_registered : Bool
deriving DecidableEq, Repr

/-- Module start-up `pcd_platform_driver_init`. -/
def pcd_platform_driver_init (env : load_env) (st : driver_state) : load_out :=
  let ret := env.alloc_chrdev_region
  if ret < 0 then ⟨ret, st, none, false, false⟩
  else
    let st := { st with
      pcdrv_data := { st.pcdrv_data with device_num_base := env.device_num_base } }
    let st := { st with pcdrv_data := { st.pcdrv_data with class_pcd := env.class_create } }
    if IS_ERR st.pcdrv_data.class_pcd then
      ⟨to_int st.pcdrv_data.class_pcd, st, none, false, false⟩
    else
      ⟨0, st, some (st.pcdrv_data.device_num_base, MAX_DEV_SUPPORT), true, true⟩

/-- One call of a life-cycle callback by the platform bus: probe of platform
device number `dev` of the system, with what the kernel answers during the
call, or remove of platform device number `dev`. -/
inductive lifecycle_call where
  | probe (dev : Nat) (env : probe_env) : lifecycle_call
  | remove (dev : Nat) : lifecycle_call
deriving DecidableEq, Repr

/-- The driver and kernel state together with the platform devices of the
system. -/
structure world where
  st : driver_state
  pdevs : List platform_device
deriving DecidableEq, Repr

/-- A platform device is published when it has driver data and the class
holds a device file with the device number of that record. -/
def is_published (st : driver_state) (pdev : platform_device) : Bool :=
  match pdev.driver_data with
  | none => false
  | some dev_data => st.devices.any (fun d => decide (d.1 = dev_data.dev_num))

/-- Runs the calls in order.  `none` when a call names a platform device the
system does not have or a remove is applied to a device that is not
published. -/
def run_lifecycle (w : world) : List lifecycle_call → Option world
  | [] => some w
  | lifecycle_call.probe dev env :: calls =>
    match w.pdevs[dev]? with
    | none => none
    | some pdev =>
      let r := pcd_platform_driver_probe env w.st pdev
      run_lifecycle ⟨r.st, w.pdevs.set dev r.pdev⟩ calls
  | lifecycle_call.remove dev :: calls =>
    match w.pdevs[dev]? with
    | none => none
    | some pdev =>
      if is_published w.st pdev then
        match pcd_platform_driver_remove w.st pdev with
        | none => none
        | some r => run_lifecycle ⟨r.st, w.pdevs.set dev r.pdev⟩ calls
      else none

end PcdPlatform

/-! # Properties -/

/-- The count the drivers use after the adjustment keeps the position inside
the device: with `c` the adjusted count, `0 ≤ p + c ≤ size`. -/
theorem adjusted_count_bounds (size : Nat) (p : Int) (n : Nat)
    (hs : size < UINT_LIMIT) (hp0 : 0 ≤ p) (hp : p ≤ size) (hn : n < SIZE_LIMIT) :
    0 ≤ p + ((if to_loff_t (p + n) > to_int size
        then to_size_t (to_loff_t (to_int size - p)) else n : Nat) : Int)
    ∧ p + ((if to_loff_t (p + n) > to_int size
        then to_size_t (to_loff_t (to_int size - p)) else n : Nat) : Int) ≤ size := by
  unfold UINT_LIMIT at hs
  unfold SIZE_LIMIT at hn
  unfold to_loff_t to_int to_size_t
  split <;> omega

/-- A position between 0 and the largest `unsigned` is unchanged by the
conversion to `loff_t`. -/
theorem to_loff_t_of_range (x : Int) (h0 : 0 ≤ x) (h1 : x ≤ 4294967295) : to_loff_t x = x := by
  unfold to_loff_t; omega

/-- On a device whose size fits an `int` the adjusted count is the smaller of
the requested length and the space left. -/
theorem adjusted_count_eq (size p n : Nat) (hs : size ≤ INT_MAX) (hp : p ≤ size)
    (hn : n < SIZE_LIMIT) :
    (if to_loff_t ((p : Int) + n) > to_int size
      then to_size_t (to_loff_t (to_int size - p)) else n : Nat) = min n (size - p) := by
  unfold INT_MAX at hs
  unfold SIZE_LIMIT at hn
  unfold to_loff_t to_int to_size_t
  split <;> omega

/-- Conversions leave an in-range count and position unchanged. -/
theorem clamp_facts (size p n buff : Nat) (hs : size ≤ INT_MAX) (hp : p ≤ size)
    (hbuff : n ≤ buff) (k : Nat) (hk : k = min n (size - p)) :
    to_ssize_t (k : Int) = (k : Int) ∧ to_loff_t ((p : Int) + (k : Int)) = ((p + k : Nat) : Int)
      ∧ (0 ≤ (p : Int) ∧ (p : Int) + (k : Int) ≤ (size : Int)) ∧ min k buff = k := by
  unfold INT_MAX at hs
  unfold to_ssize_t to_int to_loff_t
  omega

/-- A size that fits an `int` is unchanged when it is read into `max_size`. -/
theorem to_int_of_le_int_max (size : Nat) (h : size ≤ INT_MAX) : to_int (size : Int) = size := by
  unfold INT_MAX at h
  unfold to_int; omega

/-- Reading back what was just written at the start of the buffer: the first
`k` bytes of the first `m` bytes of the new buffer are the first `k` bytes of
the data, when `k ≤ m` and `k ≤ data.length`. -/
theorem take_of_written_data (mem data : List Byte) (k m : Nat) (hk : k ≤ data.length)
    (hm : k ≤ m) :
    (((mem.take 0 ++ data.take k ++ mem.drop (0 + k)).drop 0).take m).take k = data.take k := by
  have hlen : (data.take k).length = k := by
    rw [List.length_take]; omega
  rw [List.take_take, Nat.min_eq_left hm, List.drop_zero, List.take_zero, List.nil_append,
    List.take_append_of_le_length (by omega), List.take_take, Nat.min_self]

namespace PcdPlatform

/-- One read on a device whose buffer has `size` bytes is defined, leaves the
position inside `[0, size]` and does not touch the buffer. -/
theorem pcd_read_step (d : pcdev_priv_data) (mem : List Byte) (buff n : Nat) (p : Int)
    (hb : d.buffer = some mem) (hl : mem.length = d.pdata.size)
    (hs : d.pdata.size < UINT_LIMIT) (hp0 : 0 ≤ p) (hp : p ≤ d.pdata.size)
    (hn : n < SIZE_LIMIT) :
    ∃ r, pcd_read d buff n p = some r ∧ 0 ≤ r.f_pos ∧ r.f_pos ≤ d.pdata.size
      ∧ r.buffer = mem := by
  have h := adjusted_count_bounds d.pdata.size p n hs hp0 hp hn
  simp only [pcd_read, hb]
  generalize (if to_loff_t (p + n) > to_int d.pdata.size
    then to_size_t (to_loff_t (to_int d.pdata.size - p)) else n : Nat) = c at h ⊢
  have hc : 0 ≤ p ∧ p + (c : Int) ≤ (mem.length : Int) := by
    rw [hl]; exact ⟨hp0, h.2⟩
  simp only [copy_to_user, if_pos hc]
  have hw : to_loff_t (p + c) = p + c := by
    apply to_loff_t_of_range _ h.1
    unfold UINT_LIMIT at hs; omega
  split
  · exact ⟨_, rfl, hp0, hp, rfl⟩
  · exact ⟨_, rfl, by rw [hw]; exact h.1, by rw [hw]; exact h.2, rfl⟩

/-- One write on a device whose buffer has `size` bytes is defined, leaves
the position inside `[0, size]` and keeps the length of the buffer. -/
theorem pcd_write_step (d : pcdev_priv_data) (mem : List Byte) (buff : List Byte) (n : Nat)
    (p : Int)
    (hb : d.buffer = some mem) (hl : mem.length = d.pdata.size)
    (hs : d.pdata.size < UINT_LIMIT) (hp0 : 0 ≤ p) (hp : p ≤ d.pdata.size)
    (hn : n < SIZE_LIMIT) :
    ∃ w, pcd_write d buff n p = some w ∧ 0 ≤ w.f_pos ∧ w.f_pos ≤ d.pdata.size
      ∧ w.buffer.length = d.pdata.size := by
  have h := adjusted_count_bounds d.pdata.size p n hs hp0 hp hn
  simp only [pcd_write, hb]
  generalize (if to_loff_t (p + n) > to_int d.pdata.size
    then to_size_t (to_loff_t (to_int d.pdata.size - p)) else n : Nat) = c at h ⊢
  have hc : 0 ≤ p ∧ p + (c : Int) ≤ (mem.length : Int) := by
    rw [hl]; exact ⟨hp0, h.2⟩
  have hw : to_loff_t (p + c) = p + c := by
    apply to_loff_t_of_range _ h.1
    unfold UINT_LIMIT at hs; omega
  have hlen : (List.take p.toNat mem ++ (List.take (min c buff.length) buff
        ++ List.replicate (c - min c buff.length) 0) ++ List.drop (p.toNat + c) mem).length
        = d.pdata.size := by
    simp only [List.length_append, List.length_take, List.length_drop, List.length_replicate]
    omega
  by_cases hz : c = 0
  · simp only [hz, if_true]
    exact ⟨_, rfl, hp0, hp, hl⟩
  · simp only [hz, if_false, copy_from_user, if_pos hc]
    split
    · exact ⟨_, rfl, hp0, hp, hlen⟩
    · exact ⟨_, rfl, by rw [hw]; exact h.1, by rw [hw]; exact h.2, hlen⟩

/-- The cursor invariant from any position inside the device. -/
theorem run_calls_bounds (calls : List io_call) :
    ∀ (d : pcdev_priv_data) (mem : List Byte) (p : Int),
      d.buffer = some mem → mem.length = d.pdata.size → d.pdata.size < UINT_LIMIT →
      0 ≤ p → p ≤ d.pdata.size → (∀ c ∈ calls, c.count < SIZE_LIMIT) →
      ∃ trace, run_calls d p calls = some trace ∧ trace.length = calls.length
        ∧ ∀ c ∈ trace, 0 ≤ c ∧ c ≤ (d.pdata.size : Int) := by
  induction calls with
  | nil =>
    intro d mem p _ _ _ _ _ _
    exact ⟨[], rfl, rfl, by simp⟩
  | cons call calls ih =>
    intro d mem p hb hl hs hp0 hp hn
    have hn1 : call.count < SIZE_LIMIT := hn call (List.mem_cons_self _ _)
    have hn2 : ∀ c ∈ calls, c.count < SIZE_LIMIT :=
      fun c hc => hn c (List.mem_cons_of_mem _ hc)
    cases call with
    | read buff count =>
      obtain ⟨r, hr, hr0, hr1, _⟩ := pcd_read_step d mem buff count p hb hl hs hp0 hp hn1
      obtain ⟨t, ht, htl, htb⟩ := ih d mem r.f_pos hb hl hs hr0 hr1 hn2
      refine ⟨r.f_pos :: t, ?_, by simp [htl], ?_⟩
      · simp only [run_calls, hr, ht, Option.map_some']
      · intro c hc
        rcases List.mem_cons.mp hc with h | h
        · rw [h]; exact ⟨hr0, hr1⟩
        · exact htb c h
    | write buff count =>
      obtain ⟨w, hw, hw0, hw1, hwl⟩ := pcd_write_step d mem buff count p hb hl hs hp0 hp hn1
      obtain ⟨t, ht, htl, htb⟩ :=
        ih { d with buffer := some w.buffer } w.buffer w.f_pos rfl hwl hs hw0 hw1 hn2
      refine ⟨w.f_pos :: t, ?_, by simp [htl], ?_⟩
      · simp only [run_calls, hw, ht, Option.map_some']
      · intro c hc
        rcases List.mem_cons.mp hc with h | h
        · rw [h]; exact ⟨hw0, hw1⟩
        · exact htb c h

/-- A read whose adjusted count `k` is covered by the user buffer returns `k`
bytes from the position and advances it. -/
theorem pcd_read_eq_aux (d : pcdev_priv_data) (mem : List Byte) (buff n p k : Nat) (P : Int)
    (hb : d.buffer = some mem)
    (hc : (if to_loff_t (P + n) > to_int d.pdata.size
      then to_size_t (to_loff_t (to_int d.pdata.size - P)) else n : Nat) = k)
    (ht : P.toNat = p) (h1 : to_ssize_t (k : Int) = (k : Int))
    (h2 : to_loff_t (P + (k : Int)) = ((p + k : Nat) : Int))
    (hr : 0 ≤ P ∧ P + (k : Int) ≤ (mem.length : Int)) (hm : min k buff = k) :
    pcd_read d buff n P = some ⟨(k : Int), ((p + k : Nat) : Int), (mem.drop p).take k, mem⟩ := by
  simp only [pcd_read, hb, hc, copy_to_user, if_pos hr, hm, Nat.sub_self, ne_eq,
    not_true_eq_false, if_false, ht, h1, h2]

/-- The read of `n` bytes at position `p` on a device whose size fits an `int`,
into a user buffer that can take them. -/
theorem pcd_read_eq (d : pcdev_priv_data) (mem : List Byte) (buff n p : Nat)
    (hb : d.buffer = some mem) (hl : mem.length = d.pdata.size)
    (hs : d.pdata.size ≤ INT_MAX) (hp : p ≤ d.pdata.size)
    (hn : n < SIZE_LIMIT) (hbuff : n ≤ buff) :
    pcd_read d buff n p = some
      ⟨(min n (d.pdata.size - p) : Nat), ((p + min n (d.pdata.size - p) : Nat) : Int),
        (mem.drop p).take (min n (d.pdata.size - p)), mem⟩ := by
  obtain ⟨h1, h2, hr, hm⟩ := clamp_facts d.pdata.size p n buff hs hp hbuff _ rfl
  exact pcd_read_eq_aux d mem buff n p _ p hb (adjusted_count_eq d.pdata.size p n hs hp hn)
    (Int.toNat_ofNat p) h1 h2 ⟨hr.1, hl ▸ hr.2⟩ hm


/-- A write whose adjusted count `k` is not zero and is covered by the user
buffer stores `k` bytes at the position and advances it. -/
theorem pcd_write_eq_aux (d : pcdev_priv_data) (mem buff : List Byte) (n p k : Nat) (P : Int)
    (hb : d.buffer = some mem)
    (hc : (if to_loff_t (P + n) > to_int d.pdata.size
      then to_size_t (to_loff_t (to_int d.pdata.size - P)) else n : Nat) = k)
    (hk : k ≠ 0)
    (ht : P.toNat = p) (h1 : to_ssize_t (k : Int) = (k : Int))
    (h2 : to_loff_t (P + (k : Int)) = ((p + k : Nat) : Int))
    (hr : 0 ≤ P ∧ P + (k : Int) ≤ (mem.length : Int)) (hm : min k buff.length = k) :
    pcd_write d buff n P
      = some ⟨(k : Int), ((p + k : Nat) : Int), mem.take p ++ buff.take k ++ mem.drop (p + k)⟩ := by
  simp only [pcd_write, hb, hc, hk, copy_from_user, if_pos hr, hm, Nat.sub_self, ne_eq,
    not_true_eq_false, if_false, ht, h1, h2, List.replicate_zero, List.append_nil]

/-- A write whose adjusted count is zero fails with `-ENOMEM` and changes
nothing. -/
theorem pcd_write_nospace_aux (d : pcdev_priv_data) (mem buff : List Byte) (n : Nat) (P : Int)
    (hb : d.buffer = some mem)
    (hc : (if to_loff_t (P + n) > to_int d.pdata.size
      then to_size_t (to_loff_t (to_int d.pdata.size - P)) else n : Nat) = 0) :
    pcd_write d buff n P = some ⟨-ENOMEM, P, mem⟩ := by
  simp only [pcd_write, hb, hc, if_true]

/-- A write whose adjusted count `k` exceeds the readable user bytes fails
with `-EFAULT` and leaves the position where it was. -/
theorem pcd_write_fault_aux (d : pcdev_priv_data) (mem buff : List Byte) (n k : Nat) (P : Int)
    (hb : d.buffer = some mem)
    (hc : (if to_loff_t (P + n) > to_int d.pdata.size
      then to_size_t (to_loff_t (to_int d.pdata.size - P)) else n : Nat) = k)
    (hk : k ≠ 0)
    (hr : 0 ≤ P ∧ P + (k : Int) ≤ (mem.length : Int)) (hm : k - min k buff.length ≠ 0) :
    ∃ w, pcd_write d buff n P = some w ∧ w.ret = -EFAULT ∧ w.f_pos = P := by
  simp only [pcd_write, hb, hc, hk, copy_from_user, if_pos hr, hm, ne_eq,
    not_false_eq_true, if_true, if_false]
  exact ⟨_, rfl, rfl, rfl⟩

/-- A read whose adjusted count `k` exceeds the writable user bytes fails with
`-EFAULT` and leaves the position where it was. -/
theorem pcd_read_fault_aux (d : pcdev_priv_data) (mem : List Byte) (buff n k : Nat) (P : Int)
    (hb : d.buffer = some mem)
    (hc : (if to_loff_t (P + n) > to_int d.pdata.size
      then to_size_t (to_loff_t (to_int d.pdata.size - P)) else n : Nat) = k)
    (hr : 0 ≤ P ∧ P + (k : Int) ≤ (mem.length : Int)) (hm : k - min k buff ≠ 0) :
    ∃ r, pcd_read d buff n P = some r ∧ r.ret = -EFAULT ∧ r.f_pos = P := by
  simp only [pcd_read, hb, hc, copy_to_user, if_pos hr, hm, ne_eq,
    not_false_eq_true, if_true]
  exact ⟨_, rfl, rfl, rfl⟩

/-- The write of `data` at position `p < size` on a device whose size fits an
`int`. -/
theorem pcd_write_eq (d : pcdev_priv_data) (mem data : List Byte) (p : Nat)
    (hb : d.buffer = some mem) (hl : mem.length = d.pdata.size)
    (hs : d.pdata.size ≤ INT_MAX) (hp : p ≤ d.pdata.size)
    (hn : data.length < SIZE_LIMIT) (hk : min data.length (d.pdata.size - p) ≠ 0) :
    pcd_write d data data.length p = some
      ⟨(min data.length (d.pdata.size - p) : Nat),
        ((p + min data.length (d.pdata.size - p) : Nat) : Int),
        mem.take p ++ data.take (min data.length (d.pdata.size - p))
          ++ mem.drop (p + min data.length (d.pdata.size - p))⟩ := by
  obtain ⟨h1, h2, hr, hm⟩ :=
    clamp_facts d.pdata.size p data.length data.length hs hp (le_refl _) _ rfl
  exact pcd_write_eq_aux d mem data data.length p _ p hb
    (adjusted_count_eq d.pdata.size p data.length hs hp hn) hk
    (Int.toNat_ofNat p) h1 h2 ⟨hr.1, hl ▸ hr.2⟩ hm

/-- The write of `data` when no byte fits: `-ENOMEM`, nothing changes. -/
theorem pcd_write_nospace (d : pcdev_priv_data) (mem data : List Byte) (p : Nat)
    (hb : d.buffer = some mem)
    (hs : d.pdata.size ≤ INT_MAX) (hp : p ≤ d.pdata.size)
    (hn : data.length < SIZE_LIMIT) (hk : min data.length (d.pdata.size - p) = 0) :
    pcd_write d data data.length p = some ⟨-ENOMEM, p, mem⟩ :=
  pcd_write_nospace_aux d mem data data.length p hb
    ((adjusted_count_eq d.pdata.size p data.length hs hp hn).trans hk)

/-- The seek on a device whose `max_size` is `C`: the target is accepted
exactly when it lies in `[0, C]`. -/
theorem pcd_lseek_aux (d : pcdev_priv_data) (C P off whence : Int)
    (hM : to_int d.pdata.size = C) (hC0 : 0 ≤ C) (hC : C ≤ 2147483647)
    (hP0 : 0 ≤ P) (hP : P ≤ C) (hoff : is_loff_t off) :
    (∀ t, seek_target C P off whence = some t → 0 ≤ t → t ≤ C →
      pcd_lseek d P off whence = ⟨t, t⟩)
    ∧ ((∀ t, seek_target C P off whence = some t → ¬ (0 ≤ t ∧ t ≤ C)) →
      pcd_lseek d P off whence = ⟨-EINVAL, P⟩) := by
  unfold is_loff_t at hoff
  have e1 : to_loff_t (P + off) = P + off ∨ to_loff_t (P + off) < 0 := by
    unfold to_loff_t; omega
  have e2 : to_loff_t (C + off) = C + off ∨ to_loff_t (C + off) < 0 := by
    unfold to_loff_t; omega
  have e3 : P + off ≤ 9223372036854775807 → to_loff_t (P + off) = P + off := by
    unfold to_loff_t; omega
  have e4 : C + off ≤ 9223372036854775807 → to_loff_t (C + off) = C + off := by
    unfold to_loff_t; omega
  simp only [pcd_lseek, hM, seek_target, SEEK_SET, SEEK_CUR, SEEK_END]
  generalize to_loff_t (P + off) = t1 at e1 e3 ⊢
  generalize to_loff_t (C + off) = t2 at e2 e4 ⊢
  constructor
  · intro t ht h0 h1
    by_cases w0 : whence = 0
    · rw [if_pos w0] at ht
      rw [if_pos w0]
      have : off = t := Option.some.inj ht
      subst this
      rw [if_neg (by omega)]
    · rw [if_neg w0] at ht
      rw [if_neg w0]
      by_cases w1 : whence = 1
      · rw [if_pos w1] at ht
        rw [if_pos w1]
        have : P + off = t := Option.some.inj ht
        subst this
        have ht1 : t1 = P + off := by omega
        subst ht1
        rw [if_neg (by omega)]
      · rw [if_neg w1] at ht
        rw [if_neg w1]
        by_cases w2 : whence = 2
        · rw [if_pos w2] at ht
          rw [if_pos w2]
          have : C + off = t := Option.some.inj ht
          subst this
          have ht2 : t2 = C + off := by omega
          subst ht2
          rw [if_neg (by omega)]
        · rw [if_neg w2] at ht
          exact absurd ht (by simp)
  · intro h
    by_cases w0 : whence = 0
    · rw [if_pos w0] at h
      rw [if_pos w0]
      have := h off rfl
      rw [if_pos (by omega)]
    · rw [if_neg w0] at h
      rw [if_neg w0]
      by_cases w1 : whence = 1
      · rw [if_pos w1] at h
        rw [if_pos w1]
        have := h (P + off) rfl
        rw [if_pos (by omega)]
      · rw [if_neg w1] at h
        rw [if_neg w1]
        by_cases w2 : whence = 2
        · rw [if_pos w2] at h
          rw [if_pos w2]
          have := h (C + off) rfl
          rw [if_pos (by omega)]
        · rw [if_neg w2]

/-- The remove callback on a platform device whose driver data is set. -/
theorem pcd_platform_driver_remove_eq (st : driver_state) (pdev : platform_device)
    (dev_data : pcdev_priv_data) (h : pdev.driver_data = some dev_data) :
    pcd_platform_driver_remove st pdev = some
      ⟨0, ⟨{ st.pcdrv_data with total_devs := to_int (st.pcdrv_data.total_devs - 1) },
          cdev_del st.cdevs dev_data.cdev.dev, device_destroy st.devices dev_data.dev_num⟩,
        pdev⟩ := by
  simp only [pcd_platform_driver_remove, h]

end PcdPlatform

namespace PcdN

/-- The multi-device `pcd_read` is the platform driver's `pcd_read` on a record
with the same size and buffer. -/
theorem pcd_read_eq_platform (d : pcdev_priv_data) (buff n : Nat) (P : Int) :
    pcd_read d buff n P
      = PcdPlatform.pcd_read ⟨⟨d.size, d.perm, d.serial_num⟩, d.buffer, 0, ⟨false, false, 0, 0⟩⟩
          buff n P := rfl

/-- The multi-device `pcd_write` is the platform driver's `pcd_write` on a
record with the same size and buffer. -/
theorem pcd_write_eq_platform (d : pcdev_priv_data) (buff : List Byte) (n : Nat) (P : Int) :
    pcd_write d buff n P
      = PcdPlatform.pcd_write ⟨⟨d.size, d.perm, d.serial_num⟩, d.buffer, 0, ⟨false, false, 0, 0⟩⟩
          buff n P := rfl

/-- The multi-device `pcd_lseek` is the platform driver's `pcd_lseek` on a
record with the same size. -/
theorem pcd_lseek_eq_platform (d : pcdev_priv_data) (P off whence : Int) :
    pcd_lseek d P off whence
      = PcdPlatform.pcd_lseek ⟨⟨d.size, d.perm, d.serial_num⟩, d.buffer, 0, ⟨false, false, 0, 0⟩⟩
          P off whence := rfl

end PcdN


/-! ## The I/O engine -/

/-- Claim C1: on a device of capacity `C` with `0 < C`, `C` an unsigned 32-bit
value, every sequence of `pcd_read` and `pcd_write` calls with arbitrary
requested lengths on a file whose position starts at 0 is defined, and the
position after each call lies between 0 and `C`. -/
theorem cursor_within_capacity (d : PcdPlatform.pcdev_priv_data) (mem : List Byte)
    (calls : List PcdPlatform.io_call)
    (hb : d.buffer = some mem) (hl : mem.length = d.pdata.size)
    (hC0 : 0 < d.pdata.size) (hC : d.pdata.size < UINT_LIMIT)
    (hn : ∀ c ∈ calls, c.count < SIZE_LIMIT) :
    ∃ trace, PcdPlatform.run_calls d 0 calls = some trace ∧ trace.length = calls.length
      ∧ ∀ c ∈ trace, 0 ≤ c ∧ c ≤ (d.pdata.size : Int) :=
  PcdPlatform.run_calls_bounds calls d mem 0 hb hl hC (le_refl 0) (by omega) hn

/-- Witness of claim C1: a device of four bytes and four calls, two of them
asking for more than the device holds. -/
theorem cursor_within_capacity_witness :
    ∃ trace, PcdPlatform.run_calls
        ⟨⟨4, PcdPlatform.RDWR, "PCDEV-A"⟩, some [0, 0, 0, 0], 0, ⟨true, true, 0, 1⟩⟩ 0
        [PcdPlatform.io_call.write [1, 2, 3] 3, PcdPlatform.io_call.read 9 9,
          PcdPlatform.io_call.write [7, 7] 2, PcdPlatform.io_call.read 0 5] = some trace
      ∧ trace.length = 4 ∧ ∀ c ∈ trace, 0 ≤ c ∧ c ≤ ((4 : Nat) : Int) :=
  cursor_within_capacity
    ⟨⟨4, PcdPlatform.RDWR, "PCDEV-A"⟩, some [0, 0, 0, 0], 0, ⟨true, true, 0, 1⟩⟩ [0, 0, 0, 0]
    [PcdPlatform.io_call.write [1, 2, 3] 3, PcdPlatform.io_call.read 9 9,
      PcdPlatform.io_call.write [7, 7] 2, PcdPlatform.io_call.read 0 5]
    rfl rfl (by decide) (by decide) (by decide)

/-- Claim C2, amended: for every capacity `C` of a device buffer (a buffer of
`C` bytes, at most `INT_MAX` on the 32-bit target), every position `p ≤ C`,
every requested length `n` and a user buffer with at least `n` writable
bytes, `pcd_read` of both drivers returns `min n (C - p)`, stores the
buffer bytes at positions `p .. p + min n (C - p) - 1` in the user buffer,
moves the position to `p + min n (C - p)` and leaves the device buffer as it
was; at `p = C` the count is 0 and no byte is stored. -/
theorem pcd_read_returns_clamped_slice (size p n buff : Nat) (mem : List Byte)
    (hl : mem.length = size) (hC : size ≤ INT_MAX) (hp : p ≤ size)
    (hn : n < SIZE_LIMIT) (hbuff : n ≤ buff) :
    (∀ d : PcdPlatform.pcdev_priv_data, d.pdata.size = size → d.buffer = some mem →
      PcdPlatform.pcd_read d buff n p = some
        ⟨(min n (size - p) : Nat), ((p + min n (size - p) : Nat) : Int),
          (mem.drop p).take (min n (size - p)), mem⟩)
    ∧ (∀ d : PcdN.pcdev_priv_data, d.size = size → d.buffer = some mem →
      PcdN.pcd_read d buff n p = some
        ⟨(min n (size - p) : Nat), ((p + min n (size - p) : Nat) : Int),
          (mem.drop p).take (min n (size - p)), mem⟩)
    ∧ (p = size → min n (size - p) = 0 ∧ (mem.drop p).take (min n (size - p)) = []) := by
  refine ⟨?_, ?_, ?_⟩
  · intro d hs hb
    subst hs
    exact PcdPlatform.pcd_read_eq d mem buff n p hb hl hC hp hn hbuff
  · intro d hs hb
    subst hs
    rw [PcdN.pcd_read_eq_platform]
    exact PcdPlatform.pcd_read_eq _ mem buff n p hb hl hC hp hn hbuff
  · intro h
    subst h
    simp

/-- Witness of claim C2: a read of 30 bytes at position 5 of a device of 8
bytes returns the last three bytes, in both drivers. -/
theorem pcd_read_returns_clamped_slice_witness :
    PcdPlatform.pcd_read
        ⟨⟨8, PcdPlatform.RDWR, "PCDEV-A"⟩, some [1, 2, 3, 4, 5, 6, 7, 8], 0, ⟨true, true, 0, 1⟩⟩
        30 30 ((5 : Nat) : Int)
      = some ⟨((3 : Nat) : Int), ((8 : Nat) : Int), [6, 7, 8], [1, 2, 3, 4, 5, 6, 7, 8]⟩
    ∧ PcdN.pcd_read
        ⟨some [1, 2, 3, 4, 5, 6, 7, 8], 8, "PCDDEV0000", PcdN.RDONLY, ⟨true, true, 0, 1⟩⟩
        30 30 ((5 : Nat) : Int)
      = some ⟨((3 : Nat) : Int), ((8 : Nat) : Int), [6, 7, 8], [1, 2, 3, 4, 5, 6, 7, 8]⟩ :=
  ⟨(pcd_read_returns_clamped_slice 8 5 30 30 [1, 2, 3, 4, 5, 6, 7, 8] rfl (by decide)
      (by decide) (by decide) (by decide)).1 _ rfl rfl,
    (pcd_read_returns_clamped_slice 8 5 30 30 [1, 2, 3, 4, 5, 6, 7, 8] rfl (by decide)
      (by decide) (by decide) (by decide)).2.1 _ rfl rfl⟩

/-- Counterexample to claim C2 as stated: device 0 of the multi-device driver
(1024 bytes), position 0, a read of four bytes into user memory of which no
byte is writable: `copy_to_user` cannot copy and `pcd_read` fails with
`-EFAULT`, leaving the position at 0, instead of returning four bytes. -/
theorem pcd_read_unwritable_user_buffer_faults :
    min 4 (1024 - 0) = 4
    ∧ ∃ r, PcdN.pcd_read
        ⟨some (List.replicate 1024 0), 1024, "PCDDEV0000", PcdN.RDONLY, ⟨true, true, 0, 1⟩⟩
        0 4 0 = some r ∧ r.ret = -EFAULT ∧ r.f_pos = 0 := by
  refine ⟨by decide, ?_⟩
  rw [PcdN.pcd_read_eq_platform]
  refine PcdPlatform.pcd_read_fault_aux _ (List.replicate 1024 0) 0 4 4 0 rfl
    (by decide) ?_ (by decide)
  rw [List.length_replicate]
  decide

/-- Claim C3: for every capacity `C` of a device buffer (a buffer of `C`
bytes, at most `INT_MAX` on the 32-bit target), every position `p < C` and
every non-empty data of length `n`, `pcd_write` of both drivers
returns `min n (C - p)`, which is positive, stores the first `min n (C - p)`
bytes of the data at positions `p .. p + min n (C - p) - 1`, leaves every other
byte of the buffer as it was and moves the position to `p + min n (C - p)`:
data longer than the space left is cut to `C - p` bytes. -/
theorem pcd_write_stores_clamped_data (size p : Nat) (mem data : List Byte)
    (hl : mem.length = size) (hC : size ≤ INT_MAX) (hp : p < size)
    (hd : data ≠ []) (hn : data.length < SIZE_LIMIT) :
    0 < min data.length (size - p)
    ∧ (∀ d : PcdPlatform.pcdev_priv_data, d.pdata.size = size → d.buffer = some mem →
      PcdPlatform.pcd_write d data data.length p = some
        ⟨(min data.length (size - p) : Nat), ((p + min data.length (size - p) : Nat) : Int),
          mem.take p ++ data.take (min data.length (size - p))
            ++ mem.drop (p + min data.length (size - p))⟩)
    ∧ (∀ d : PcdN.pcdev_priv_data, d.size = size → d.buffer = some mem →
      PcdN.pcd_write d data data.length p = some
        ⟨(min data.length (size - p) : Nat), ((p + min data.length (size - p) : Nat) : Int),
          mem.take p ++ data.take (min data.length (size - p))
            ++ mem.drop (p + min data.length (size - p))⟩) := by
  have hlen : 0 < data.length := List.length_pos.mpr hd
  have hk : 0 < min data.length (size - p) := by omega
  refine ⟨hk, ?_, ?_⟩
  · intro d hs hb
    subst hs
    exact PcdPlatform.pcd_write_eq d mem data p hb hl hC (le_of_lt hp) hn
      (Nat.pos_iff_ne_zero.mp hk)
  · intro d hs hb
    subst hs
    rw [PcdN.pcd_write_eq_platform]
    exact PcdPlatform.pcd_write_eq _ mem data p hb hl hC (le_of_lt hp) hn
      (Nat.pos_iff_ne_zero.mp hk)

/-- Witness of claim C3: five bytes written at position 6 of a device of 8
bytes; two are stored, in both drivers. -/
theorem pcd_write_stores_clamped_data_witness :
    PcdPlatform.pcd_write
        ⟨⟨8, PcdPlatform.RDWR, "PCDEV-A"⟩, some [1, 2, 3, 4, 5, 6, 7, 8], 0, ⟨true, true, 0, 1⟩⟩
        [9, 10, 11, 12, 13] 5 ((6 : Nat) : Int)
      = some ⟨((2 : Nat) : Int), ((8 : Nat) : Int), [1, 2, 3, 4, 5, 6, 9, 10]⟩
    ∧ PcdN.pcd_write
        ⟨some [1, 2, 3, 4, 5, 6, 7, 8], 8, "PCDDEV0001", PcdN.WRONLY, ⟨true, true, 0, 1⟩⟩
        [9, 10, 11, 12, 13] 5 ((6 : Nat) : Int)
      = some ⟨((2 : Nat) : Int), ((8 : Nat) : Int), [1, 2, 3, 4, 5, 6, 9, 10]⟩ :=
  ⟨(pcd_write_stores_clamped_data 8 6 [1, 2, 3, 4, 5, 6, 7, 8] [9, 10, 11, 12, 13] rfl
      (by decide) (by decide) (by decide) (by decide)).2.1 _ rfl rfl,
    (pcd_write_stores_clamped_data 8 6 [1, 2, 3, 4, 5, 6, 7, 8] [9, 10, 11, 12, 13] rfl
      (by decide) (by decide) (by decide) (by decide)).2.2 _ rfl rfl⟩

/-- Claim C4: for every capacity `C` of a device buffer (a buffer of `C`
bytes, at most `INT_MAX` on the 32-bit target), every position `p ≤ C` and
every data, `pcd_write` returns `-ENOMEM` exactly when
`min (length data) (C - p) = 0`, in particular whenever `p = C`, and then it
leaves the position and the buffer as they were. -/
theorem pcd_write_out_of_space_iff (d : PcdPlatform.pcdev_priv_data) (mem data : List Byte)
    (p : Nat)
    (hb : d.buffer = some mem) (hl : mem.length = d.pdata.size)
    (hC : d.pdata.size ≤ INT_MAX) (hp : p ≤ d.pdata.size) (hn : data.length < SIZE_LIMIT) :
    ∃ w, PcdPlatform.pcd_write d data data.length p = some w
      ∧ (w.ret = -ENOMEM ↔ min data.length (d.pdata.size - p) = 0)
      ∧ (p = d.pdata.size → w.ret = -ENOMEM)
      ∧ (w.ret = -ENOMEM → w.f_pos = p ∧ w.buffer = mem) := by
  by_cases hk : min data.length (d.pdata.size - p) = 0
  · refine ⟨_, PcdPlatform.pcd_write_nospace d mem data p hb hC hp hn hk, ?_, ?_, ?_⟩
    · exact ⟨fun _ => hk, fun _ => rfl⟩
    · intro _; rfl
    · intro _; exact ⟨rfl, rfl⟩
  · refine ⟨_, PcdPlatform.pcd_write_eq d mem data p hb hl hC hp hn hk, ?_, ?_, ?_⟩
    · constructor
      · intro h
        exfalso
        have h' : ((min data.length (d.pdata.size - p) : Nat) : Int) = -ENOMEM := h
        unfold ENOMEM at h'
        omega
      · intro h; exact absurd h hk
    · intro h
      exfalso
      omega
    · intro h
      exfalso
      have h' : ((min data.length (d.pdata.size - p) : Nat) : Int) = -ENOMEM := h
      unfold ENOMEM at h'
      omega

/-- Witness of claim C4: a write of three bytes at the end of a device of 8
bytes. -/
theorem pcd_write_out_of_space_iff_witness :
    ∃ w, PcdPlatform.pcd_write
        ⟨⟨8, PcdPlatform.RDWR, "PCDEV-A"⟩, some [1, 2, 3, 4, 5, 6, 7, 8], 0, ⟨true, true, 0, 1⟩⟩
        [9, 9, 9] 3 ((8 : Nat) : Int) = some w
      ∧ w.ret = -ENOMEM ∧ w.f_pos = ((8 : Nat) : Int) ∧ w.buffer = [1, 2, 3, 4, 5, 6, 7, 8] := by
  obtain ⟨w, hw, _, hend, hsame⟩ := pcd_write_out_of_space_iff
    ⟨⟨8, PcdPlatform.RDWR, "PCDEV-A"⟩, some [1, 2, 3, 4, 5, 6, 7, 8], 0, ⟨true, true, 0, 1⟩⟩
    [1, 2, 3, 4, 5, 6, 7, 8] [9, 9, 9] 8 rfl rfl (by decide) (by decide) (by decide)
  exact ⟨w, hw, hend rfl, (hsame (hend rfl)).1, (hsame (hend rfl)).2⟩

/-- Claim C5: for every capacity `C` of a device buffer (at most `INT_MAX`
bytes on the 32-bit target), every position `p` with `0 ≤ p ≤ C`, every
64-bit signed offset and every origin, `pcd_lseek` of
both drivers succeeds exactly when the origin is `SEEK_SET`, `SEEK_CUR` or
`SEEK_END` and the target (`offset`, `p + offset` or `C + offset`) lies in
`[0, C]`: then it sets the position to the target and returns it; otherwise it
returns `-EINVAL` and leaves the position as it was.  The function has no
access to the device buffer. -/
theorem pcd_lseek_accepts_exactly_valid_targets (size : Nat) (p off whence : Int)
    (hC : size ≤ INT_MAX) (hp0 : 0 ≤ p) (hp : p ≤ size) (hoff : is_loff_t off) :
    (∀ d : PcdPlatform.pcdev_priv_data, d.pdata.size = size →
      (∀ t, seek_target size p off whence = some t → 0 ≤ t → t ≤ size →
        PcdPlatform.pcd_lseek d p off whence = ⟨t, t⟩)
      ∧ ((∀ t, seek_target size p off whence = some t → ¬ (0 ≤ t ∧ t ≤ size)) →
        PcdPlatform.pcd_lseek d p off whence = ⟨-EINVAL, p⟩))
    ∧ (∀ d : PcdN.pcdev_priv_data, d.size = size →
      (∀ t, seek_target size p off whence = some t → 0 ≤ t → t ≤ size →
        PcdN.pcd_lseek d p off whence = ⟨t, t⟩)
      ∧ ((∀ t, seek_target size p off whence = some t → ¬ (0 ≤ t ∧ t ≤ size)) →
        PcdN.pcd_lseek d p off whence = ⟨-EINVAL, p⟩)) := by
  have hC1 : (size : Int) ≤ 2147483647 := by unfold INT_MAX at hC; omega
  constructor
  · intro d hs
    exact PcdPlatform.pcd_lseek_aux d size p off whence
      (by rw [hs]; exact to_int_of_le_int_max size hC) (by omega) hC1 hp0 hp hoff
  · intro d hs
    rw [PcdN.pcd_lseek_eq_platform]
    exact PcdPlatform.pcd_lseek_aux _ size p off whence
      (by rw [← hs] at hC ⊢; exact to_int_of_le_int_max d.size hC) (by omega) hC1 hp0 hp hoff

/-- Witness of claim C5: on a device of 512 bytes at position 100 the absolute
seek to 512 succeeds, the absolute seeks to -1 and to 513 fail, and the seek
to 512 bytes before the end succeeds. -/
theorem pcd_lseek_accepts_exactly_valid_targets_witness :
    PcdPlatform.pcd_lseek
        ⟨⟨512, PcdPlatform.RDWR, "PCDEV-A"⟩, some (List.replicate 512 0), 0, ⟨true, true, 0, 1⟩⟩
        100 512 SEEK_SET = ⟨512, 512⟩
    ∧ PcdPlatform.pcd_lseek
        ⟨⟨512, PcdPlatform.RDWR, "PCDEV-A"⟩, some (List.replicate 512 0), 0, ⟨true, true, 0, 1⟩⟩
        100 (-1) SEEK_SET = ⟨-EINVAL, 100⟩
    ∧ PcdN.pcd_lseek
        ⟨some (List.replicate 512 0), 512, "PCDDEV0003", PcdN.RDWR, ⟨true, true, 0, 1⟩⟩
        100 513 SEEK_SET = ⟨-EINVAL, 100⟩
    ∧ PcdN.pcd_lseek
        ⟨some (List.replicate 512 0), 512, "PCDDEV0003", PcdN.RDWR, ⟨true, true, 0, 1⟩⟩
        100 (-512) SEEK_END = ⟨0, 0⟩ :=
  ⟨((pcd_lseek_accepts_exactly_valid_targets 512 100 512 SEEK_SET (by decide) (by decide)
      (by decide) (by decide)).1 _ rfl).1 512 rfl (by decide) (by decide),
    ((pcd_lseek_accepts_exactly_valid_targets 512 100 (-1) SEEK_SET (by decide) (by decide)
      (by decide) (by decide)).1 _ rfl).2
      (fun t ht => by cases (Option.some.inj ht); decide),
    ((pcd_lseek_accepts_exactly_valid_targets 512 100 513 SEEK_SET (by decide) (by decide)
      (by decide) (by decide)).2 _ rfl).2
      (fun t ht => by cases (Option.some.inj ht); decide),
    ((pcd_lseek_accepts_exactly_valid_targets 512 100 (-512) SEEK_END (by decide) (by decide)
      (by decide) (by decide)).2 _ rfl).1 0 rfl (by decide) (by decide)⟩

/-! ## The permission gate -/

/-- Claim C6: `check_permission` returns 0 for exactly the pairs
(RDONLY, read), (WRONLY, write), (RDWR, read), (RDWR, write) and
(RDWR, read and write), and a non-zero error for the four other pairs of a
permission and a requested mode. -/
theorem check_permission_rule_table :
    PcdN.check_permission PcdN.RDONLY FMODE_READ = 0
    ∧ PcdN.check_permission PcdN.RDONLY FMODE_WRITE ≠ 0
    ∧ PcdN.check_permission PcdN.RDONLY (FMODE_READ ||| FMODE_WRITE) ≠ 0
    ∧ PcdN.check_permission PcdN.WRONLY FMODE_READ ≠ 0
    ∧ PcdN.check_permission PcdN.WRONLY FMODE_WRITE = 0
    ∧ PcdN.check_permission PcdN.WRONLY (FMODE_READ ||| FMODE_WRITE) ≠ 0
    ∧ PcdN.check_permission PcdN.RDWR FMODE_READ = 0
    ∧ PcdN.check_permission PcdN.RDWR FMODE_WRITE = 0
    ∧ PcdN.check_permission PcdN.RDWR (FMODE_READ ||| FMODE_WRITE) = 0 := by
  decide

/-- Claim C7, the code at the failing input: in the platform driver `pcd_open`
of a file opened for writing on a read-only device returns 0, although the
driver's own `check_permission` answers `-ENOMEM` for that pair and `pcd_open`
of the multi-device driver returns that error. -/
theorem platform_pcd_open_skips_permission_check :
    (PcdPlatform.pcd_open
        ⟨0, ⟨⟨512, PcdPlatform.RDONLY, "PCDEV-A"⟩, some (List.replicate 512 0), 0,
          ⟨true, true, 0, 1⟩⟩⟩
        ⟨FMODE_WRITE, 0, none⟩).1 = 0
    ∧ PcdPlatform.check_permission PcdPlatform.RDONLY FMODE_WRITE = -ENOMEM
    ∧ (PcdN.pcd_open
        ⟨0, ⟨some (List.replicate 512 0), 512, "PCDDEV0000", PcdN.RDONLY, ⟨true, true, 0, 1⟩⟩⟩
        ⟨FMODE_WRITE, 0, none⟩).1 = -ENOMEM := by
  refine ⟨rfl, by decide, by decide⟩

/-- Claim C8: for every capacity `C > 0` of a device buffer (a buffer of `C`
bytes, at most `INT_MAX` on the 32-bit target), every non-empty data and
every `n ≥ min (length data) C`, on a file at position 0 a
`pcd_write` of the data returns `w = min (length data) C`, the absolute seek to
0 then returns 0, and a `pcd_read` of `n` bytes (into user memory that can
take them) then returns `min n C` bytes whose first `w` bytes are the first
`w` bytes of the data. -/
theorem write_seek_read_round_trip (d : PcdPlatform.pcdev_priv_data) (mem data : List Byte)
    (n buff : Nat)
    (hb : d.buffer = some mem) (hl : mem.length = d.pdata.size)
    (hC0 : 0 < d.pdata.size) (hC : d.pdata.size ≤ INT_MAX)
    (hd : data ≠ []) (hdn : data.length < SIZE_LIMIT) (hn : n < SIZE_LIMIT)
    (hge : min data.length d.pdata.size ≤ n) (hbuff : n ≤ buff) :
    ∃ w r, PcdPlatform.pcd_write d data data.length 0 = some w
      ∧ w.ret = (min data.length d.pdata.size : Nat)
      ∧ PcdPlatform.pcd_lseek { d with buffer := some w.buffer } w.f_pos 0 SEEK_SET = ⟨0, 0⟩
      ∧ PcdPlatform.pcd_read { d with buffer := some w.buffer } buff n 0 = some r
      ∧ r.ret = (min n d.pdata.size : Nat)
      ∧ r.user.length = min n d.pdata.size
      ∧ r.user.take (min data.length d.pdata.size) = data.take (min data.length d.pdata.size) := by
  have hlen : 0 < data.length := List.length_pos.mpr hd
  have hk0 : min data.length (d.pdata.size - 0) ≠ 0 := by omega
  have hw := PcdPlatform.pcd_write_eq d mem data 0 hb hl hC (Nat.zero_le _) hdn hk0
  have hwl : (mem.take 0 ++ data.take (min data.length (d.pdata.size - 0))
      ++ mem.drop (0 + min data.length (d.pdata.size - 0))).length = d.pdata.size := by
    simp only [List.length_append, List.length_take, List.length_drop]
    omega
  have hr := PcdPlatform.pcd_read_eq
    { d with buffer := some (mem.take 0 ++ data.take (min data.length (d.pdata.size - 0))
      ++ mem.drop (0 + min data.length (d.pdata.size - 0))) }
    _ buff n 0 rfl hwl hC (Nat.zero_le _) hn hbuff
  have hs := (PcdPlatform.pcd_lseek_aux
    { d with buffer := some (mem.take 0 ++ data.take (min data.length (d.pdata.size - 0))
      ++ mem.drop (0 + min data.length (d.pdata.size - 0))) }
    d.pdata.size ((0 + min data.length (d.pdata.size - 0) : Nat) : Int) 0 SEEK_SET
    (to_int_of_le_int_max _ hC) (by omega) (by unfold INT_MAX at hC; omega) (by omega)
    (by omega) (by decide)).1 0 rfl (le_refl 0) (by omega)
  rw [Nat.sub_zero] at hw hr hs
  refine ⟨_, _, hw, rfl, hs, hr, rfl, ?_, ?_⟩
  · show (List.take (min n d.pdata.size) (List.drop 0 _)).length = _
    rw [List.length_take, List.length_drop]
    rw [Nat.sub_zero] at hwl
    omega
  · exact take_of_written_data mem data _ _ (Nat.min_le_left _ _)
      (Nat.le_min.mpr ⟨hge, Nat.min_le_right _ _⟩)

/-- Witness of claim C8: capacity 512, 600 bytes of the letter A written, a
read of 1000 bytes returns 512 bytes, all of them the letter A. -/
theorem write_seek_read_round_trip_witness :
    ∃ w r, PcdPlatform.pcd_write
        ⟨⟨512, PcdPlatform.RDWR, "PCDEV-A"⟩, some (List.replicate 512 0), 0, ⟨true, true, 0, 1⟩⟩
        (List.replicate 600 65) (List.replicate 600 (65 : Byte)).length 0 = some w
      ∧ w.ret = 512
      ∧ PcdPlatform.pcd_lseek
          ⟨⟨512, PcdPlatform.RDWR, "PCDEV-A"⟩, some w.buffer, 0, ⟨true, true, 0, 1⟩⟩
          w.f_pos 0 SEEK_SET = ⟨0, 0⟩
      ∧ PcdPlatform.pcd_read
          ⟨⟨512, PcdPlatform.RDWR, "PCDEV-A"⟩, some w.buffer, 0, ⟨true, true, 0, 1⟩⟩
          1000 1000 0 = some r
      ∧ r.ret = 512 ∧ r.user = List.replicate 512 65 := by
  obtain ⟨w, r, hw, hwr, hs, hr, hrr, hlen, htake⟩ := write_seek_read_round_trip
    ⟨⟨512, PcdPlatform.RDWR, "PCDEV-A"⟩, some (List.replicate 512 0), 0, ⟨true, true, 0, 1⟩⟩
    (List.replicate 512 0) (List.replicate 600 65) 1000 1000 rfl (List.length_replicate _ _)
    (by decide) (by decide)
    (List.ne_nil_of_length_pos (by rw [List.length_replicate]; decide))
    (by rw [List.length_replicate]; decide) (by decide)
    (by rw [List.length_replicate]; decide) (le_refl _)
  refine ⟨w, r, hw, ?_, hs, hr, ?_, ?_⟩
  · rw [hwr, List.length_replicate]; rfl
  · rw [hrr]; rfl
  · have h1 : min (List.replicate 600 (65 : Byte)).length 512 = 512 := by
      rw [List.length_replicate]; rfl
    have h2 : min 1000 512 = 512 := rfl
    rw [h1] at htake
    change r.user.length = min 1000 512 at hlen
    rw [h2] at hlen
    rw [← List.take_length r.user, hlen, htake, List.take_replicate]
    rfl

/-! ## Probe and remove -/

/-- Claim C9, amended: whenever `pcd_platform_driver_probe` returns an error,
no character device is left added, no device file is left created, no record
or buffer allocation is left attached to the platform device, and the
live-device counter, the device number base, the class, and the id and
platform data of the platform device are as before the call. -/
theorem probe_failure_releases_resources (env : PcdPlatform.probe_env)
    (st : PcdPlatform.driver_state) (pdev : PcdPlatform.platform_device)
    (herr : (PcdPlatform.pcd_platform_driver_probe env st pdev).ret ≠ 0) :
    (PcdPlatform.pcd_platform_driver_probe env st pdev).st.cdevs = st.cdevs
    ∧ (PcdPlatform.pcd_platform_driver_probe env st pdev).st.devices = st.devices
    ∧ (PcdPlatform.pcd_platform_driver_probe env st pdev).pdev.devres = pdev.devres
    ∧ (PcdPlatform.pcd_platform_driver_probe env st pdev).st.pcdrv_data.total_devs
        = st.pcdrv_data.total_devs
    ∧ (PcdPlatform.pcd_platform_driver_probe env st pdev).st.pcdrv_data.device_num_base
        = st.pcdrv_data.device_num_base
    ∧ (PcdPlatform.pcd_platform_driver_probe env st pdev).st.pcdrv_data.class_pcd
        = st.pcdrv_data.class_pcd
    ∧ (PcdPlatform.pcd_platform_driver_probe env st pdev).pdev.id = pdev.id
    ∧ (PcdPlatform.pcd_platform_driver_probe env st pdev).pdev.platform_data
        = pdev.platform_data := by
  obtain ⟨a, b, c, e⟩ := env
  unfold PcdPlatform.pcd_platform_driver_probe at herr ⊢
  cases hpd : pdev.platform_data with
  | none => simp [hpd]
  | some pdata =>
    simp only [hpd] at herr ⊢
    cases a
    · simp [hpd]
    · cases b
      · simp [hpd, PcdPlatform.devm_kfree]
      · by_cases hc : c < 0
        · simp [hpd, hc, PcdPlatform.devm_kfree]
        · by_cases he : PcdPlatform.IS_ERR e = true
          · simp [hpd, hc, he, PcdPlatform.devm_kfree, PcdPlatform.cdev_del]
          · simp [hc, he] at herr

/-- Witness of claim C9: a probe whose device file cannot be created. -/
theorem probe_failure_releases_resources_witness :
    (PcdPlatform.pcd_platform_driver_probe ⟨true, true, 0, -17⟩
        ⟨⟨3, 265289728, 1000, 0⟩, [265289729], [(265289729, "pcdev-1")]⟩
        ⟨0, some ⟨512, PcdPlatform.RDWR, "PCDEVXYZ"⟩, none, []⟩).st.cdevs = [265289729]
    ∧ (PcdPlatform.pcd_platform_driver_probe ⟨true, true, 0, -17⟩
        ⟨⟨3, 265289728, 1000, 0⟩, [265289729], [(265289729, "pcdev-1")]⟩
        ⟨0, some ⟨512, PcdPlatform.RDWR, "PCDEVXYZ"⟩, none, []⟩).pdev.devres = []
    ∧ (PcdPlatform.pcd_platform_driver_probe ⟨true, true, 0, -17⟩
        ⟨⟨3, 265289728, 1000, 0⟩, [265289729], [(265289729, "pcdev-1")]⟩
        ⟨0, some ⟨512, PcdPlatform.RDWR, "PCDEVXYZ"⟩, none, []⟩).st.pcdrv_data.total_devs = 3 :=
  ⟨(probe_failure_releases_resources ⟨true, true, 0, -17⟩
      ⟨⟨3, 265289728, 1000, 0⟩, [265289729], [(265289729, "pcdev-1")]⟩
      ⟨0, some ⟨512, PcdPlatform.RDWR, "PCDEVXYZ"⟩, none, []⟩ (by decide)).1,
    (probe_failure_releases_resources ⟨true, true, 0, -17⟩
      ⟨⟨3, 265289728, 1000, 0⟩, [265289729], [(265289729, "pcdev-1")]⟩
      ⟨0, some ⟨512, PcdPlatform.RDWR, "PCDEVXYZ"⟩, none, []⟩ (by decide)).2.2.1,
    (probe_failure_releases_resources ⟨true, true, 0, -17⟩
      ⟨⟨3, 265289728, 1000, 0⟩, [265289729], [(265289729, "pcdev-1")]⟩
      ⟨0, some ⟨512, PcdPlatform.RDWR, "PCDEVXYZ"⟩, none, []⟩ (by decide)).2.2.2.1⟩

/-- Counterexample to claim C9 as stated: after a probe that fails because the
device file cannot be created, the state is not the state before the call: the
platform device, which had no driver data, still points to the released
record, and the field `device_pcd` of the driver holds the error pointer. -/
theorem probe_failure_keeps_driver_data :
    (PcdPlatform.pcd_platform_driver_probe ⟨true, true, 0, -17⟩
        ⟨⟨0, 265289728, 1000, 0⟩, [], []⟩
        ⟨0, some ⟨512, PcdPlatform.RDWR, "PCDEVXYZ"⟩, none, []⟩).ret = -17
    ∧ (PcdPlatform.pcd_platform_driver_probe ⟨true, true, 0, -17⟩
        ⟨⟨0, 265289728, 1000, 0⟩, [], []⟩
        ⟨0, some ⟨512, PcdPlatform.RDWR, "PCDEVXYZ"⟩, none, []⟩).pdev.driver_data.isSome = true
    ∧ (PcdPlatform.pcd_platform_driver_probe ⟨true, true, 0, -17⟩
        ⟨⟨0, 265289728, 1000, 0⟩, [], []⟩
        ⟨0, some ⟨512, PcdPlatform.RDWR, "PCDEVXYZ"⟩, none, []⟩).pdev.devres = []
    ∧ (PcdPlatform.pcd_platform_driver_probe ⟨true, true, 0, -17⟩
        ⟨⟨0, 265289728, 1000, 0⟩, [], []⟩
        ⟨0, some ⟨512, PcdPlatform.RDWR, "PCDEVXYZ"⟩, none, []⟩).st.pcdrv_data.device_pcd = -17 := by
  decide

/-- Claim C10, amended: `pcd_platform_driver_remove` has no `NotFound`
failure; it returns an error for no platform device.  For every platform
device whose driver data is set, as for every device the platform bus hands
it, it returns 0; for a platform device without driver data, one the driver
does not know, the call dereferences the null driver data and has no defined
result. -/
theorem remove_never_reports_not_found (st : PcdPlatform.driver_state)
    (pdev : PcdPlatform.platform_device) :
    (pdev.driver_data = none → PcdPlatform.pcd_platform_driver_remove st pdev = none)
    ∧ (∀ dev_data, pdev.driver_data = some dev_data →
      ∃ r, PcdPlatform.pcd_platform_driver_remove st pdev = some r ∧ r.ret = 0)
    ∧ (∀ r, PcdPlatform.pcd_platform_driver_remove st pdev = some r → r.ret = 0) := by
  refine ⟨?_, ?_, ?_⟩
  · intro h
    simp only [PcdPlatform.pcd_platform_driver_remove, h]
  · intro dev_data h
    exact ⟨_, PcdPlatform.pcd_platform_driver_remove_eq st pdev dev_data h, rfl⟩
  · intro r hr
    cases hd : pdev.driver_data with
    | none =>
      simp only [PcdPlatform.pcd_platform_driver_remove, hd] at hr
      exact absurd hr (by simp)
    | some dev_data =>
      rw [PcdPlatform.pcd_platform_driver_remove_eq st pdev dev_data hd] at hr
      cases hr
      rfl

/-- Witness of claim C10: the remove of a platform device that was probed
returns 0. -/
theorem remove_never_reports_not_found_witness :
    ∃ r, PcdPlatform.pcd_platform_driver_remove
        ⟨⟨1, 265289728, 1000, 2000⟩, [265289728], [(265289728, "pcdev-0")]⟩
        ⟨0, some ⟨4, PcdPlatform.RDWR, "PCDEVXYZ"⟩,
          some ⟨⟨4, PcdPlatform.RDWR, "PCDEVXYZ"⟩, some [0, 0, 0, 0], 265289728,
            ⟨true, true, 265289728, 1⟩⟩,
          [PcdPlatform.devres_node.buffer 4, PcdPlatform.devres_node.dev_data]⟩ = some r
      ∧ r.ret = 0 :=
  (remove_never_reports_not_found
    ⟨⟨1, 265289728, 1000, 2000⟩, [265289728], [(265289728, "pcdev-0")]⟩
    ⟨0, some ⟨4, PcdPlatform.RDWR, "PCDEVXYZ"⟩,
      some ⟨⟨4, PcdPlatform.RDWR, "PCDEVXYZ"⟩, some [0, 0, 0, 0], 265289728,
        ⟨true, true, 265289728, 1⟩⟩,
      [PcdPlatform.devres_node.buffer 4, PcdPlatform.devres_node.dev_data]⟩).2.1 _ rfl

/-- Counterexample to claim C10 as stated: there is no state and no platform
device for which `pcd_platform_driver_remove` returns a value other than 0, so
it fails with `NotFound` for none; for a platform device the driver does not
know (it was never probed and has no driver data) the call returns no error,
it has no defined result. -/
theorem remove_returns_no_error :
    (¬ ∃ st pdev r, PcdPlatform.pcd_platform_driver_remove st pdev = some r ∧ r.ret ≠ 0)
    ∧ PcdPlatform.pcd_platform_driver_remove
        ⟨⟨1, 265289728, 1000, 2000⟩, [265289728], [(265289728, "pcdev-0")]⟩
        ⟨5, some ⟨512, PcdPlatform.RDWR, "PCDEVXYZ"⟩, none, []⟩ = none := by
  refine ⟨?_, rfl⟩
  rintro ⟨st, pdev, r, hr, hne⟩
  apply hne
  cases hd : pdev.driver_data with
  | none =>
    simp only [PcdPlatform.pcd_platform_driver_remove, hd] at hr
    exact absurd hr (by simp)
  | some dev_data =>
    rw [PcdPlatform.pcd_platform_driver_remove_eq st pdev dev_data hd] at hr
    cases hr
    rfl

/-! ## The three copies of the I/O engine -/

/-- The size 512 is unchanged when it is read into `int max_size`. -/
theorem to_int_dev_mem_size : to_int ((512 : Nat) : Int) = Pcd.DEV_MEM_SIZE := by
  decide

namespace Pcd

/-- The single-device `pcd_read` is the platform driver's `pcd_read` on a
device of size 512 with the same buffer. -/
theorem pcd_read_eq_platform_512 (d : PcdPlatform.pcdev_priv_data) (mem : List Byte)
    (buff n : Nat) (P : Int) (hs : d.pdata.size = 512) (hb : d.buffer = some mem) :
    PcdPlatform.pcd_read d buff n P = pcd_read mem buff n P := by
  simp only [PcdPlatform.pcd_read, pcd_read, hs, hb, to_int_dev_mem_size]

/-- The single-device `pcd_write` is the platform driver's `pcd_write` on a
device of size 512 with the same buffer. -/
theorem pcd_write_eq_platform_512 (d : PcdPlatform.pcdev_priv_data) (mem buff : List Byte)
    (n : Nat) (P : Int) (hs : d.pdata.size = 512) (hb : d.buffer = some mem) :
    PcdPlatform.pcd_write d buff n P = pcd_write mem buff n P := by
  simp only [PcdPlatform.pcd_write, pcd_write, hs, hb, to_int_dev_mem_size]

/-- The single-device `pcd_lseek` is the platform driver's `pcd_lseek` on a
device of size 512. -/
theorem pcd_lseek_eq_platform_512 (d : PcdPlatform.pcdev_priv_data) (P off whence : Int)
    (hs : d.pdata.size = 512) :
    PcdPlatform.pcd_lseek d P off whence = pcd_lseek P off whence := by
  simp only [PcdPlatform.pcd_lseek, pcd_lseek, hs, to_int_dev_mem_size]

end Pcd

/-! ## Module start-up of the multi-device driver -/

namespace PcdN

/-- The device numbers of two different devices of the driver are different. -/
theorem to_dev_t_injective_small (b i j : Nat) (hi : i < 4) (hj : j < 4) (hij : i ≠ j) :
    to_dev_t ((b : Int) + (i : Int)) ≠ to_dev_t ((b : Int) + (j : Int)) := by
  unfold to_dev_t
  omega

/-- An error pointer converts to a negative `int`. -/
theorem to_int_neg_of_is_err (p : Int) (h : IS_ERR p = true) : to_int p < 0 := by
  unfold IS_ERR at h
  have h' := of_decide_eq_true h
  unfold to_int
  omega

/-- Writing the fields of a character device leaves the first device number of
the driver data as it was. -/
theorem update_cdev_device_number (drv : pcdrv_priv_data) (i : Nat) (f : cdev → cdev) :
    (update_cdev drv i f).device_number = drv.device_number := by
  unfold update_cdev
  cases drv.pcdev_data[i]? <;> rfl

end PcdN

/-- Claim C13: when module start-up of the multi-device driver fails at the
device with index `i < MAX_DEV_SUPPORT`, because its `cdev_add` or its
`device_create` fails while the devices before it were set up, it returns a
negative value, and before it returns it runs `device_destroy` and `cdev_del`
for the indices `i`, `i - 1`, down to 0, in this order, then destroys the class
and releases the device numbers: no character device and no device file of the
batch is left. -/
theorem pcd_driver_init_rolls_back_batch (env : PcdN.init_env) (i : Nat)
    (hi : i < PcdN.MAX_DEV_SUPPORT)
    (halloc : 0 ≤ env.alloc_chrdev_region) (hclass : PcdN.IS_ERR env.class_create = false)
    (hok : ∀ j, j < i → 0 ≤ env.cdev_add j ∧ PcdN.IS_ERR (env.device_create j) = false)
    (hfail : env.cdev_add i < 0 ∨ PcdN.IS_ERR (env.device_create i) = true) :
    (PcdN.pcd_driver_init env PcdN.module_state_at_load).1 < 0
    ∧ (PcdN.pcd_driver_init env PcdN.module_state_at_load).2.cdevs = []
    ∧ (PcdN.pcd_driver_init env PcdN.module_state_at_load).2.devices = []
    ∧ (PcdN.pcd_driver_init env PcdN.module_state_at_load).2.class_live = false
    ∧ (PcdN.pcd_driver_init env PcdN.module_state_at_load).2.region = none
    ∧ (PcdN.pcd_driver_init env PcdN.module_state_at_load).2.calls
      = [PcdN.kernel_call.alloc_chrdev_region, PcdN.kernel_call.class_create]
        ++ (List.range i).flatMap (fun j =>
            [PcdN.kernel_call.cdev_init j, PcdN.kernel_call.cdev_add j,
              PcdN.kernel_call.device_create j])
        ++ (if env.cdev_add i < 0 then
              [PcdN.kernel_call.cdev_init i, PcdN.kernel_call.cdev_add i]
            else [PcdN.kernel_call.cdev_init i, PcdN.kernel_call.cdev_add i,
              PcdN.kernel_call.device_create i])
        ++ (List.range (i + 1)).reverse.flatMap (fun j =>
            [PcdN.kernel_call.device_destroy j, PcdN.kernel_call.cdev_del j])
        ++ [PcdN.kernel_call.class_destroy, PcdN.kernel_call.unregister_chrdev_region] := by
  have hna : ¬ env.alloc_chrdev_region < 0 := by omega
  have d01 : PcdN.to_dev_t (env.device_number : Int) ≠ PcdN.to_dev_t (env.device_number + 1) := by
    unfold PcdN.to_dev_t; omega
  have d02 : PcdN.to_dev_t (env.device_number : Int) ≠ PcdN.to_dev_t (env.device_number + 2) := by
    unfold PcdN.to_dev_t; omega
  have d03 : PcdN.to_dev_t (env.device_number : Int) ≠ PcdN.to_dev_t (env.device_number + 3) := by
    unfold PcdN.to_dev_t; omega
  have d12 : PcdN.to_dev_t ((env.device_number : Int) + 1)
      ≠ PcdN.to_dev_t (env.device_number + 2) := by
    unfold PcdN.to_dev_t; omega
  have d13 : PcdN.to_dev_t ((env.device_number : Int) + 1)
      ≠ PcdN.to_dev_t (env.device_number + 3) := by
    unfold PcdN.to_dev_t; omega
  have d23 : PcdN.to_dev_t ((env.device_number : Int) + 2)
      ≠ PcdN.to_dev_t (env.device_number + 3) := by
    unfold PcdN.to_dev_t; omega
  have r1 : List.range 1 = [0] := rfl
  have r2 : List.range 2 = [0, 1] := rfl
  have r3 : List.range 3 = [0, 1, 2] := rfl
  have r4 : List.range 4 = [0, 1, 2, 3] := rfl
  unfold PcdN.MAX_DEV_SUPPORT at hi
  have hc0 := hok 0
  have hc1 := hok 1
  have hc2 := hok 2
  by_cases hf : env.cdev_add i < 0
  · interval_cases i
    · simp [PcdN.pcd_driver_init, PcdN.setup_loop, PcdN.rollback_loop, PcdN.rollback_device,
        PcdN.module_state_at_load, PcdN.MAX_DEV_SUPPORT, PcdN.device_destroy, PcdN.update_cdev_device_number, hna, hclass, hf,
        r1]
    · have h0 := hc0 (by decide)
      have h0' : ¬ env.cdev_add 0 < 0 := by omega
      simp [PcdN.pcd_driver_init, PcdN.setup_loop, PcdN.rollback_loop, PcdN.rollback_device,
        PcdN.module_state_at_load, PcdN.MAX_DEV_SUPPORT, PcdN.device_destroy, PcdN.update_cdev_device_number, hna, hclass, hf,
        h0', h0.2, r1, r2, d01, d01.symm]
    · have h0 := hc0 (by decide)
      have h0' : ¬ env.cdev_add 0 < 0 := by omega
      have h1 := hc1 (by decide)
      have h1' : ¬ env.cdev_add 1 < 0 := by omega
      simp [PcdN.pcd_driver_init, PcdN.setup_loop, PcdN.rollback_loop, PcdN.rollback_device,
        PcdN.module_state_at_load, PcdN.MAX_DEV_SUPPORT, PcdN.device_destroy, PcdN.update_cdev_device_number, hna, hclass, hf,
        h0', h0.2, h1', h1.2, r1, r2, r3, d01, d01.symm, d02, d02.symm, d12, d12.symm]
    · have h0 := hc0 (by decide)
      have h0' : ¬ env.cdev_add 0 < 0 := by omega
      have h1 := hc1 (by decide)
      have h1' : ¬ env.cdev_add 1 < 0 := by omega
      have h2 := hc2 (by decide)
      have h2' : ¬ env.cdev_add 2 < 0 := by omega
      simp [PcdN.pcd_driver_init, PcdN.setup_loop, PcdN.rollback_loop, PcdN.rollback_device,
        PcdN.module_state_at_load, PcdN.MAX_DEV_SUPPORT, PcdN.device_destroy, PcdN.update_cdev_device_number, hna, hclass, hf,
        h0', h0.2, h1', h1.2, h2', h2.2, r1, r2, r3, r4, d01, d01.symm, d02, d02.symm, d12,
        d12.symm, d03, d03.symm, d13, d13.symm, d23, d23.symm]
  · have he : PcdN.IS_ERR (env.device_create i) = true := by
      rcases hfail with h | h
      · exact absurd h hf
      · exact h
    have hneg := PcdN.to_int_neg_of_is_err _ he
    interval_cases i
    · simp [PcdN.pcd_driver_init, PcdN.setup_loop, PcdN.rollback_loop, PcdN.rollback_device,
        PcdN.module_state_at_load, PcdN.MAX_DEV_SUPPORT, PcdN.device_destroy, PcdN.update_cdev_device_number, hna, hclass, hf,
        he, hneg, r1]
    · have h0 := hc0 (by decide)
      have h0' : ¬ env.cdev_add 0 < 0 := by omega
      simp [PcdN.pcd_driver_init, PcdN.setup_loop, PcdN.rollback_loop, PcdN.rollback_device,
        PcdN.module_state_at_load, PcdN.MAX_DEV_SUPPORT, PcdN.device_destroy, PcdN.update_cdev_device_number, hna, hclass, hf,
        he, hneg, h0', h0.2, r1, r2, d01, d01.symm]
    · have h0 := hc0 (by decide)
      have h0' : ¬ env.cdev_add 0 < 0 := by omega
      have h1 := hc1 (by decide)
      have h1' : ¬ env.cdev_add 1 < 0 := by omega
      simp [PcdN.pcd_driver_init, PcdN.setup_loop, PcdN.rollback_loop, PcdN.rollback_device,
        PcdN.module_state_at_load, PcdN.MAX_DEV_SUPPORT, PcdN.device_destroy, PcdN.update_cdev_device_number, hna, hclass, hf,
        he, hneg, h0', h0.2, h1', h1.2, r1, r2, r3, d01, d01.symm, d02, d02.symm, d12, d12.symm]
    · have h0 := hc0 (by decide)
      have h0' : ¬ env.cdev_add 0 < 0 := by omega
      have h1 := hc1 (by decide)
      have h1' : ¬ env.cdev_add 1 < 0 := by omega
      have h2 := hc2 (by decide)
      have h2' : ¬ env.cdev_add 2 < 0 := by omega
      simp [PcdN.pcd_driver_init, PcdN.setup_loop, PcdN.rollback_loop, PcdN.rollback_device,
        PcdN.module_state_at_load, PcdN.MAX_DEV_SUPPORT, PcdN.device_destroy, PcdN.update_cdev_device_number, hna, hclass, hf,
        he, hneg, h0', h0.2, h1', h1.2, h2', h2.2, r1, r2, r3, r4, d01, d01.symm, d02, d02.symm,
        d12, d12.symm, d03, d03.symm, d13, d13.symm, d23, d23.symm]

/-! ## Device numbers and the live-device counter of the platform driver -/

namespace PcdPlatform

/-- A probe that returns 0 has attached a record with the device number
`device_num_base + id`, added its character device, created its device file
and incremented the counter; nothing else of the driver data changes. -/
theorem probe_success (env : probe_env) (st : driver_state) (pdev : platform_device)
    (h : (pcd_platform_driver_probe env st pdev).ret = 0) :
    ∃ d, (pcd_platform_driver_probe env st pdev).pdev.driver_data = some d
      ∧ d.dev_num = to_dev_t (st.pcdrv_data.device_num_base + pdev.id)
      ∧ (pcd_platform_driver_probe env st pdev).st.cdevs = d.dev_num :: st.cdevs
      ∧ (pcd_platform_driver_probe env st pdev).st.devices
          = (d.dev_num, "pcdev-" ++ toString pdev.id) :: st.devices
      ∧ (pcd_platform_driver_probe env st pdev).st.pcdrv_data.total_devs
          = to_int (st.pcdrv_data.total_devs + 1)
      ∧ (pcd_platform_driver_probe env st pdev).st.pcdrv_data.device_num_base
          = st.pcdrv_data.device_num_base := by
  obtain ⟨a, b, c, e⟩ := env
  unfold pcd_platform_driver_probe at h ⊢
  cases hpd : pdev.platform_data with
  | none => simp [hpd, EINVAL] at h
  | some pdata =>
    simp only [hpd] at h ⊢
    cases a
    · simp [ENOMEM] at h
    · cases b
      · simp [ENOMEM] at h
      · by_cases hc : c < 0
        · simp [hc] at h
          omega
        · by_cases he : IS_ERR e = true
          · simp only [hc, he] at h
            have hneg : to_int e < 0 := by
              unfold IS_ERR at he
              have h' := of_decide_eq_true he
              unfold to_int
              omega
            simp at h
            omega
          · simp [hc, he]

/-- A probe that returns an error leaves the device files and the counter as
they were. -/
theorem probe_failure (env : probe_env) (st : driver_state) (pdev : platform_device)
    (h : (pcd_platform_driver_probe env st pdev).ret ≠ 0) :
    (pcd_platform_driver_probe env st pdev).st.devices = st.devices
      ∧ (pcd_platform_driver_probe env st pdev).st.pcdrv_data.total_devs
          = st.pcdrv_data.total_devs := by
  obtain ⟨a, b, c, e⟩ := env
  unfold pcd_platform_driver_probe at h ⊢
  cases hpd : pdev.platform_data with
  | none => simp [hpd]
  | some pdata =>
    simp only [hpd] at h ⊢
    cases a
    · simp
    · cases b
      · simp
      · by_cases hc : c < 0
        · simp [hc]
        · by_cases he : IS_ERR e = true
          · simp [hc, he]
          · simp [hc, he] at h

/-- Destroying the device file of a device number that has one removes exactly
one device file. -/
theorem device_destroy_length (devices : List (Nat × String)) (devt : Nat)
    (h : devices.any (fun d => decide (d.1 = devt)) = true) :
    (device_destroy devices devt).length + 1 = devices.length := by
  induction devices with
  | nil => simp at h
  | cons d ds ih =>
    unfold device_destroy
    by_cases hd : d.1 = devt
    · simp [hd]
    · simp only [hd, if_false, List.length_cons]
      have h' : ds.any (fun d => decide (d.1 = devt)) = true := by
        simpa [hd] using h
      have := ih h'
      omega

end PcdPlatform

namespace PcdPlatform

/-- The counter invariant over a run: when the counter equals the number of
device files and that number is at most `k`, the same holds after the calls
with `k + calls.length`, as long as that bound fits an `int`. -/
theorem run_lifecycle_counter (calls : List lifecycle_call) :
    ∀ (w w1 : world) (k : Nat),
      w.st.pcdrv_data.total_devs = (w.st.devices.length : Int) →
      w.st.devices.length ≤ k → k + calls.length ≤ INT_MAX →
      run_lifecycle w calls = some w1 →
      w1.st.pcdrv_data.total_devs = (w1.st.devices.length : Int)
        ∧ w1.st.devices.length ≤ k + calls.length := by
  induction calls with
  | nil =>
    intro w w1 k h1 h2 _ hrun
    simp only [run_lifecycle, Option.some.injEq] at hrun
    subst hrun
    exact ⟨h1, by simpa using h2⟩
  | cons call calls ih =>
    intro w w1 k h1 h2 hk hrun
    have hk' : (k + 1) + calls.length ≤ INT_MAX := by
      simp only [List.length_cons] at hk; omega
    have hKM : k + 1 ≤ 2147483647 := by
      unfold INT_MAX at hk'; omega
    cases call with
    | probe dev env =>
      simp only [run_lifecycle] at hrun
      cases hp : w.pdevs[dev]? with
      | none => simp [hp] at hrun
      | some pdev =>
        simp only [hp] at hrun
        by_cases hret : (pcd_platform_driver_probe env w.st pdev).ret = 0
        · obtain ⟨d, _, _, _, hdev, htot, _⟩ := probe_success env w.st pdev hret
          have := ih _ w1 (k + 1)
            (by
              show (pcd_platform_driver_probe env w.st pdev).st.pcdrv_data.total_devs = _
              rw [htot, hdev, h1]
              simp only [List.length_cons]
              unfold to_int
              push_cast
              omega)
            (by
              show (pcd_platform_driver_probe env w.st pdev).st.devices.length ≤ _
              rw [hdev]; simp only [List.length_cons]; omega)
            hk' hrun
          refine ⟨this.1, ?_⟩
          simp only [List.length_cons]; omega
        · obtain ⟨hdev, htot⟩ := probe_failure env w.st pdev hret
          have := ih _ w1 (k + 1)
            (by
              show (pcd_platform_driver_probe env w.st pdev).st.pcdrv_data.total_devs = _
              rw [htot, hdev, h1])
            (by
              show (pcd_platform_driver_probe env w.st pdev).st.devices.length ≤ _
              rw [hdev]; omega)
            hk' hrun
          refine ⟨this.1, ?_⟩
          simp only [List.length_cons]; omega
    | remove dev =>
      simp only [run_lifecycle] at hrun
      cases hp : w.pdevs[dev]? with
      | none => simp [hp] at hrun
      | some pdev =>
        simp only [hp] at hrun
        by_cases hpub : is_published w.st pdev = true
        · simp only [hpub, if_true] at hrun
          cases hdd : pdev.driver_data with
          | none => simp [is_published, hdd] at hpub
          | some dev_data =>
            rw [pcd_platform_driver_remove_eq w.st pdev dev_data hdd] at hrun
            simp only at hrun
            have hany : w.st.devices.any (fun d => decide (d.1 = dev_data.dev_num)) = true := by
              simpa [is_published, hdd] using hpub
            have hlen := device_destroy_length w.st.devices dev_data.dev_num hany
            have := ih _ w1 (k + 1)
              (by
                show to_int (w.st.pcdrv_data.total_devs - 1)
                  = ((device_destroy w.st.devices dev_data.dev_num).length : Int)
                rw [h1]
                unfold to_int
                omega)
              (by
                show (device_destroy w.st.devices dev_data.dev_num).length ≤ _
                omega)
              hk' hrun
            refine ⟨this.1, ?_⟩
            simp only [List.length_cons]; omega
        · simp [hpub] at hrun

end PcdPlatform

/-! ## Error values -/

/-- Claim C11, the code at the failing input: `pcd_open` of a file opened for
writing on a read-only device returns `-ENOMEM`, the value `check_permission`
gives for a denied access, and `pcd_write` at the end of a device returns
`-ENOMEM` as well: the two error values are the same. -/
theorem permission_and_space_errors_coincide :
    PcdN.check_permission PcdN.RDONLY FMODE_WRITE = -ENOMEM
    ∧ (PcdN.pcd_open
        ⟨0, ⟨some [1, 2, 3, 4, 5, 6, 7, 8], 8, "PCDDEV0000", PcdN.RDONLY, ⟨true, true, 0, 1⟩⟩⟩
        ⟨FMODE_WRITE, 0, none⟩).1 = -ENOMEM
    ∧ (PcdN.pcd_write
        ⟨some [1, 2, 3, 4, 5, 6, 7, 8], 8, "PCDDEV0002", PcdN.RDWR, ⟨true, true, 0, 1⟩⟩
        [65] 1 8).map (fun w => w.ret) = some (-ENOMEM) := by
  decide

/-! ## Capacity 0 -/

/-- Claim C12, amended: `pcd_platform_driver_probe` does not look at the
capacity.  Its return value is the same for every capacity of the platform
data, and for a capacity of 0, when the two allocations, `cdev_add` and
`device_create` succeed, it returns 0, attaches a record with an empty buffer,
adds the character device and creates the device file. -/
theorem probe_ignores_capacity (env : PcdPlatform.probe_env) (st : PcdPlatform.driver_state)
    (pdev : PcdPlatform.platform_device) (pdata : PcdPlatform.pcdev_platform_data)
    (hpd : pdev.platform_data = some pdata) :
    (∀ size : Nat,
      (PcdPlatform.pcd_platform_driver_probe env st
        { pdev with platform_data := some { pdata with size := size } }).ret
      = (PcdPlatform.pcd_platform_driver_probe env st pdev).ret)
    ∧ (pdata.size = 0 → env.kzalloc_dev_data = true → env.kzalloc_buffer = true →
        0 ≤ env.cdev_add → PcdPlatform.IS_ERR env.device_create = false →
      (PcdPlatform.pcd_platform_driver_probe env st pdev).ret = 0
      ∧ (PcdPlatform.pcd_platform_driver_probe env st pdev).pdev.driver_data.map
          (fun d => d.buffer) = some (some [])
      ∧ (PcdPlatform.pcd_platform_driver_probe env st pdev).st.cdevs
          = PcdPlatform.to_dev_t (st.pcdrv_data.device_num_base + pdev.id) :: st.cdevs
      ∧ (PcdPlatform.pcd_platform_driver_probe env st pdev).st.devices
          = (PcdPlatform.to_dev_t (st.pcdrv_data.device_num_base + pdev.id),
              "pcdev-" ++ toString pdev.id) :: st.devices) := by
  obtain ⟨a, b, c, e⟩ := env
  constructor
  · intro size
    unfold PcdPlatform.pcd_platform_driver_probe
    simp only [hpd]
    cases a
    · simp
    · cases b
      · simp
      · by_cases hc : c < 0
        · simp [hc]
        · by_cases he : PcdPlatform.IS_ERR e = true
          · simp [hc, he]
          · simp [hc, he]
  · intro hz ha hb hc he
    simp only at ha hb hc he
    subst ha
    subst hb
    have hc' : ¬ c < 0 := by omega
    unfold PcdPlatform.pcd_platform_driver_probe
    simp [hpd, hc', he, hz]

/-- Witness of claim C12: a platform device with id 2 whose platform data has
capacity 0. -/
theorem probe_ignores_capacity_witness :
    (PcdPlatform.pcd_platform_driver_probe ⟨true, true, 0, 2000⟩
        ⟨⟨2, 265289728, 1000, 0⟩, [265289729, 265289728], []⟩
        ⟨2, some ⟨0, PcdPlatform.RDWR, "PCDEV-C"⟩, none, []⟩).ret = 0
    ∧ (PcdPlatform.pcd_platform_driver_probe ⟨true, true, 0, 2000⟩
        ⟨⟨2, 265289728, 1000, 0⟩, [265289729, 265289728], []⟩
        ⟨2, some ⟨0, PcdPlatform.RDWR, "PCDEV-C"⟩, none, []⟩).pdev.driver_data.map
          (fun d => d.buffer) = some (some []) :=
  ⟨((probe_ignores_capacity ⟨true, true, 0, 2000⟩
      ⟨⟨2, 265289728, 1000, 0⟩, [265289729, 265289728], []⟩
      ⟨2, some ⟨0, PcdPlatform.RDWR, "PCDEV-C"⟩, none, []⟩ ⟨0, PcdPlatform.RDWR, "PCDEV-C"⟩
      rfl).2 rfl rfl rfl (by decide) (by decide)).1,
    ((probe_ignores_capacity ⟨true, true, 0, 2000⟩
      ⟨⟨2, 265289728, 1000, 0⟩, [265289729, 265289728], []⟩
      ⟨2, some ⟨0, PcdPlatform.RDWR, "PCDEV-C"⟩, none, []⟩ ⟨0, PcdPlatform.RDWR, "PCDEV-C"⟩
      rfl).2 rfl rfl rfl (by decide) (by decide)).2.1⟩

/-- Counterexample to claim C12 as stated: the probe of a platform device
whose platform data has capacity 0 returns 0, not `-EINVAL`, and leaves a
character device added and a device file created. -/
theorem probe_accepts_capacity_zero :
    (PcdPlatform.pcd_platform_driver_probe ⟨true, true, 0, 2000⟩
        ⟨⟨0, 265289728, 1000, 0⟩, [], []⟩
        ⟨2, some ⟨0, PcdPlatform.RDWR, "PCDEV-C"⟩, none, []⟩).ret = 0
    ∧ (PcdPlatform.pcd_platform_driver_probe ⟨true, true, 0, 2000⟩
        ⟨⟨0, 265289728, 1000, 0⟩, [], []⟩
        ⟨2, some ⟨0, PcdPlatform.RDWR, "PCDEV-C"⟩, none, []⟩).st.cdevs = [265289730]
    ∧ (PcdPlatform.pcd_platform_driver_probe ⟨true, true, 0, 2000⟩
        ⟨⟨0, 265289728, 1000, 0⟩, [], []⟩
        ⟨2, some ⟨0, PcdPlatform.RDWR, "PCDEV-C"⟩, none, []⟩).st.devices.map Prod.fst
          = [265289730]
    ∧ (PcdPlatform.pcd_platform_driver_probe ⟨true, true, 0, 2000⟩
        ⟨⟨0, 265289728, 1000, 0⟩, [], []⟩
        ⟨2, some ⟨0, PcdPlatform.RDWR, "PCDEV-C"⟩, none, []⟩).st.pcdrv_data.total_devs = 1 := by
  decide

/-! ## Rollback of the module start-up of the multi-device driver -/

/-- Witness of claim C13: `cdev_add` fails for device 2 after devices 0 and 1
were set up. -/
theorem pcd_driver_init_rolls_back_batch_witness :
    (PcdN.pcd_driver_init ⟨0, 265289728, 1000, fun i => if i = 2 then -12 else 0, fun _ => 2000⟩
        PcdN.module_state_at_load).1 < 0
    ∧ (PcdN.pcd_driver_init ⟨0, 265289728, 1000, fun i => if i = 2 then -12 else 0, fun _ => 2000⟩
        PcdN.module_state_at_load).2.cdevs = []
    ∧ (PcdN.pcd_driver_init ⟨0, 265289728, 1000, fun i => if i = 2 then -12 else 0, fun _ => 2000⟩
        PcdN.module_state_at_load).2.devices = [] :=
  ⟨(pcd_driver_init_rolls_back_batch
      ⟨0, 265289728, 1000, fun i => if i = 2 then -12 else 0, fun _ => 2000⟩ 2
      (by decide) (by decide) (by decide) (by decide) (by decide)).1,
    (pcd_driver_init_rolls_back_batch
      ⟨0, 265289728, 1000, fun i => if i = 2 then -12 else 0, fun _ => 2000⟩ 2
      (by decide) (by decide) (by decide) (by decide) (by decide)).2.1,
    (pcd_driver_init_rolls_back_batch
      ⟨0, 265289728, 1000, fun i => if i = 2 then -12 else 0, fun _ => 2000⟩ 2
      (by decide) (by decide) (by decide) (by decide) (by decide)).2.2.1⟩

/-- Claim C18, the code at the failing input: when `cdev_add` fails for device
0, the error path of `pcd_driver_init` calls `device_destroy` and `cdev_del`
for device 0, whose `device_create` was never called and whose `cdev_add`
failed. -/
theorem pcd_driver_init_tears_down_failed_device :
    (PcdN.pcd_driver_init ⟨0, 265289728, 1000, fun _ => -12, fun _ => 2000⟩
        PcdN.module_state_at_load).2.calls
      = [PcdN.kernel_call.alloc_chrdev_region, PcdN.kernel_call.class_create,
          PcdN.kernel_call.cdev_init 0, PcdN.kernel_call.cdev_add 0,
          PcdN.kernel_call.device_destroy 0, PcdN.kernel_call.cdev_del 0,
          PcdN.kernel_call.class_destroy, PcdN.kernel_call.unregister_chrdev_region]
    ∧ (PcdN.pcd_driver_init ⟨0, 265289728, 1000, fun _ => -12, fun _ => 2000⟩
        PcdN.module_state_at_load).1 = -12 := by
  decide

/-! ## Independence of the devices -/

namespace PcdN

/-- One write on a device whose buffer has `size` bytes is defined. -/
theorem pcd_write_defined (d : pcdev_priv_data) (mem buff : List Byte) (n : Nat) (p : Int)
    (hb : d.buffer = some mem) (hl : mem.length = d.size) (hs : d.size < UINT_LIMIT)
    (hp0 : 0 ≤ p) (hp : p ≤ d.size) (hn : n < SIZE_LIMIT) :
    ∃ w, pcd_write d buff n p = some w := by
  rw [pcd_write_eq_platform]
  obtain ⟨w, hw, _⟩ := PcdPlatform.pcd_write_step
    ⟨⟨d.size, d.perm, d.serial_num⟩, d.buffer, 0, ⟨false, false, 0, 0⟩⟩ mem buff n p hb hl hs
    hp0 hp hn
  exact ⟨w, hw⟩

end PcdN

/-- Claim C14: a `pcd_write` through a file bound to device `a`, at a position
inside that device, is defined and leaves the record of every other device
`b`, with its buffer and its size, as it was. -/
theorem pcd_write_leaves_other_devices (drv : PcdN.pcdrv_priv_data) (a : Nat)
    (dA : PcdN.pcdev_priv_data) (mem buff : List Byte) (count : Nat) (f_pos : Int)
    (hA : drv.pcdev_data[a]? = some dA) (hb : dA.buffer = some mem)
    (hl : mem.length = dA.size) (hs : dA.size < UINT_LIMIT)
    (hp0 : 0 ≤ f_pos) (hp : f_pos ≤ dA.size) (hn : count < SIZE_LIMIT) :
    ∃ out, PcdN.pcd_write_device drv a buff count f_pos = some out
      ∧ ∀ b, a ≠ b → out.drv.pcdev_data[b]? = drv.pcdev_data[b]? := by
  obtain ⟨w, hw⟩ := PcdN.pcd_write_defined dA mem buff count f_pos hb hl hs hp0 hp hn
  have hout : PcdN.pcd_write_device drv a buff count f_pos = some
      ⟨w.ret, w.f_pos,
        { drv with pcdev_data := drv.pcdev_data.set a { dA with buffer := some w.buffer } }⟩ := by
    simp only [PcdN.pcd_write_device, hA, hw]
  refine ⟨_, hout, ?_⟩
  intro b hab
  exact List.getElem?_set_ne hab

/-- Witness of claim C14: three bytes written to device 0 (1024 bytes) of the
driver as loaded leave device 1 (512 bytes) as it was. -/
theorem pcd_write_leaves_other_devices_witness :
    ∃ out, PcdN.pcd_write_device PcdN.pcdrv 0 [65, 66, 67] 3 0 = some out
      ∧ out.drv.pcdev_data[1]? = PcdN.pcdrv.pcdev_data[1]? := by
  obtain ⟨out, h1, h2⟩ := pcd_write_leaves_other_devices PcdN.pcdrv 0
    ⟨some (List.replicate PcdN.DEV0_MEM_SIZE 0), PcdN.DEV0_MEM_SIZE, "PCDDEV0000", PcdN.RDONLY,
      PcdN.cdev_zero⟩
    (List.replicate PcdN.DEV0_MEM_SIZE 0) [65, 66, 67] 3 0 rfl rfl (List.length_replicate _ _)
    (by decide) (by decide) (by decide) (by decide)
  exact ⟨out, h1, h2 1 (by decide)⟩

/-! ## Device numbers of the platform driver -/

/-- Claim C15, amended: every successful `pcd_platform_driver_probe` assigns
the device number `device_num_base + id` of the platform device it is called
for; for two successful probes under the same base the numbers are equal
exactly when the platform ids are equal.  The numbers do not grow with the
order of the probes and a number is assigned again when a device with the same
id is probed again. -/
theorem probe_assigns_number_from_platform_id (env1 env2 : PcdPlatform.probe_env)
    (st1 st2 : PcdPlatform.driver_state) (pdev1 pdev2 : PcdPlatform.platform_device)
    (hbase : st1.pcdrv_data.device_num_base = st2.pcdrv_data.device_num_base)
    (hid1 : PcdPlatform.is_int pdev1.id) (hid2 : PcdPlatform.is_int pdev2.id)
    (h1 : (PcdPlatform.pcd_platform_driver_probe env1 st1 pdev1).ret = 0)
    (h2 : (PcdPlatform.pcd_platform_driver_probe env2 st2 pdev2).ret = 0) :
    ∃ d1 d2,
      (PcdPlatform.pcd_platform_driver_probe env1 st1 pdev1).pdev.driver_data = some d1
      ∧ (PcdPlatform.pcd_platform_driver_probe env2 st2 pdev2).pdev.driver_data = some d2
      ∧ d1.dev_num = PcdPlatform.to_dev_t (st1.pcdrv_data.device_num_base + pdev1.id)
      ∧ d2.dev_num = PcdPlatform.to_dev_t (st2.pcdrv_data.device_num_base + pdev2.id)
      ∧ (d1.dev_num = d2.dev_num ↔ pdev1.id = pdev2.id) := by
  obtain ⟨d1, hd1, hn1, _⟩ := PcdPlatform.probe_success env1 st1 pdev1 h1
  obtain ⟨d2, hd2, hn2, _⟩ := PcdPlatform.probe_success env2 st2 pdev2 h2
  refine ⟨d1, d2, hd1, hd2, hn1, hn2, ?_⟩
  rw [hn1, hn2, hbase]
  unfold PcdPlatform.is_int at hid1 hid2
  unfold PcdPlatform.to_dev_t
  constructor
  · intro h
    omega
  · intro h
    rw [h]

/-- Witness of claim C15: the platform devices with ids 1 and 0, probed in
this order. -/
theorem probe_assigns_number_from_platform_id_witness :
    ∃ d1 d2,
      (PcdPlatform.pcd_platform_driver_probe ⟨true, true, 0, 2000⟩
        ⟨⟨0, 265289728, 1000, 0⟩, [], []⟩
        ⟨1, some ⟨512, PcdPlatform.RDWR, "PCDEV-B"⟩, none, []⟩).pdev.driver_data = some d1
      ∧ (PcdPlatform.pcd_platform_driver_probe ⟨true, true, 0, 2001⟩
        ⟨⟨1, 265289728, 1000, 2000⟩, [265289729], [(265289729, "pcdev-1")]⟩
        ⟨0, some ⟨1024, PcdPlatform.RDWR, "PCDEV-A"⟩, none, []⟩).pdev.driver_data = some d2
      ∧ d1.dev_num = 265289729 ∧ d2.dev_num = 265289728 := by
  obtain ⟨d1, d2, h1, h2, h3, h4, _⟩ := probe_assigns_number_from_platform_id
    ⟨true, true, 0, 2000⟩ ⟨true, true, 0, 2001⟩
    ⟨⟨0, 265289728, 1000, 0⟩, [], []⟩
    ⟨⟨1, 265289728, 1000, 2000⟩, [265289729], [(265289729, "pcdev-1")]⟩
    ⟨1, some ⟨512, PcdPlatform.RDWR, "PCDEV-B"⟩, none, []⟩
    ⟨0, some ⟨1024, PcdPlatform.RDWR, "PCDEV-A"⟩, none, []⟩
    rfl (by decide) (by decide) (by decide) (by decide)
  exact ⟨d1, d2, h1, h2, h3.trans (by decide), h4.trans (by decide)⟩

/-- Counterexample to claim C15 as stated: the platform device with id 1 is
probed, then the platform device with id 0; both probes succeed and the second
device number is smaller than the first. -/
theorem later_probe_gets_smaller_number :
    (PcdPlatform.pcd_platform_driver_probe ⟨true, true, 0, 2000⟩
        ⟨⟨0, 265289728, 1000, 0⟩, [], []⟩
        ⟨1, some ⟨512, PcdPlatform.RDWR, "PCDEV-B"⟩, none, []⟩).ret = 0
    ∧ (PcdPlatform.pcd_platform_driver_probe ⟨true, true, 0, 2000⟩
        ⟨⟨0, 265289728, 1000, 0⟩, [], []⟩
        ⟨1, some ⟨512, PcdPlatform.RDWR, "PCDEV-B"⟩, none, []⟩).pdev.driver_data.map
          (fun d => d.dev_num) = some 265289729
    ∧ (PcdPlatform.pcd_platform_driver_probe ⟨true, true, 0, 2001⟩
        (PcdPlatform.pcd_platform_driver_probe ⟨true, true, 0, 2000⟩
          ⟨⟨0, 265289728, 1000, 0⟩, [], []⟩
          ⟨1, some ⟨512, PcdPlatform.RDWR, "PCDEV-B"⟩, none, []⟩).st
        ⟨0, some ⟨1024, PcdPlatform.RDWR, "PCDEV-A"⟩, none, []⟩).ret = 0
    ∧ (PcdPlatform.pcd_platform_driver_probe ⟨true, true, 0, 2001⟩
        (PcdPlatform.pcd_platform_driver_probe ⟨true, true, 0, 2000⟩
          ⟨⟨0, 265289728, 1000, 0⟩, [], []⟩
          ⟨1, some ⟨512, PcdPlatform.RDWR, "PCDEV-B"⟩, none, []⟩).st
        ⟨0, some ⟨1024, PcdPlatform.RDWR, "PCDEV-A"⟩, none, []⟩).pdev.driver_data.map
          (fun d => d.dev_num) = some 265289728 := by
  decide

/-- Claim C16: starting with the counter at 0 and no device file, after every
sequence of probe and remove calls in which each remove is applied to a
published device, `total_devs` equals the number of device files the class
holds and is not negative (the sequence being short enough for that number to
fit the `int` counter). -/
theorem total_devs_counts_published_devices (w w1 : PcdPlatform.world)
    (calls : List PcdPlatform.lifecycle_call)
    (h0 : w.st.pcdrv_data.total_devs = 0) (hd : w.st.devices = [])
    (hlen : calls.length ≤ INT_MAX)
    (hrun : PcdPlatform.run_lifecycle w calls = some w1) :
    w1.st.pcdrv_data.total_devs = (w1.st.devices.length : Int)
      ∧ 0 ≤ w1.st.pcdrv_data.total_devs := by
  have h := PcdPlatform.run_lifecycle_counter calls w w1 0 (by rw [h0, hd]; rfl)
    (by rw [hd]; exact Nat.le_refl 0) (by omega) hrun
  exact ⟨h.1, by rw [h.1]; exact Int.ofNat_nonneg _⟩

/-- Witness of claim C16: two devices; a probe, a failed probe, a second probe
and a remove leave one published device and the counter at 1. -/
theorem total_devs_counts_published_devices_witness :
    ∃ w1, PcdPlatform.run_lifecycle
        ⟨⟨⟨0, 265289728, 1000, 0⟩, [], []⟩,
          [⟨0, some ⟨4, PcdPlatform.RDWR, "PCDEV-A"⟩, none, []⟩,
            ⟨1, some ⟨8, PcdPlatform.RDONLY, "PCDEV-B"⟩, none, []⟩]⟩
        [PcdPlatform.lifecycle_call.probe 0 ⟨true, true, 0, 2000⟩,
          PcdPlatform.lifecycle_call.probe 1 ⟨true, false, 0, 2001⟩,
          PcdPlatform.lifecycle_call.probe 1 ⟨true, true, 0, 2001⟩,
          PcdPlatform.lifecycle_call.remove 0] = some w1
      ∧ w1.st.pcdrv_data.total_devs = (w1.st.devices.length : Int)
      ∧ w1.st.pcdrv_data.total_devs = 1 := by
  refine ⟨_, rfl, ?_, ?_⟩
  · exact (total_devs_counts_published_devices
      ⟨⟨⟨0, 265289728, 1000, 0⟩, [], []⟩,
        [⟨0, some ⟨4, PcdPlatform.RDWR, "PCDEV-A"⟩, none, []⟩,
          ⟨1, some ⟨8, PcdPlatform.RDONLY, "PCDEV-B"⟩, none, []⟩]⟩ _
      [PcdPlatform.lifecycle_call.probe 0 ⟨true, true, 0, 2000⟩,
        PcdPlatform.lifecycle_call.probe 1 ⟨true, false, 0, 2001⟩,
        PcdPlatform.lifecycle_call.probe 1 ⟨true, true, 0, 2001⟩,
        PcdPlatform.lifecycle_call.remove 0] rfl rfl (by decide) rfl).1
  · decide

/-- Claim C17, amended: after a successful `pcd_platform_driver_init` the
reserved range is `device_num_base .. device_num_base + MAX_DEV_SUPPORT - 1`,
and every successful `pcd_platform_driver_probe` of a platform device whose id
satisfies `0 ≤ id < MAX_DEV_SUPPORT` registers a device number inside that
range (the reserved range being a range of 32-bit device numbers). -/
theorem probe_number_in_reserved_range (lenv : PcdPlatform.load_env)
    (st0 st : PcdPlatform.driver_state) (env : PcdPlatform.probe_env)
    (pdev : PcdPlatform.platform_device)
    (hload : (PcdPlatform.pcd_platform_driver_init lenv st0).ret = 0)
    (hbase : st.pcdrv_data.device_num_base
      = (PcdPlatform.pcd_platform_driver_init lenv st0).st.pcdrv_data.device_num_base)
    (hfit : lenv.device_num_base + PcdPlatform.MAX_DEV_SUPPORT ≤ 4294967296)
    (hid0 : 0 ≤ pdev.id) (hid1 : pdev.id < PcdPlatform.MAX_DEV_SUPPORT)
    (h : (PcdPlatform.pcd_platform_driver_probe env st pdev).ret = 0) :
    (PcdPlatform.pcd_platform_driver_init lenv st0).region
        = some (lenv.device_num_base, PcdPlatform.MAX_DEV_SUPPORT)
      ∧ ∃ d, (PcdPlatform.pcd_platform_driver_probe env st pdev).pdev.driver_data = some d
        ∧ (PcdPlatform.pcd_platform_driver_probe env st pdev).st.cdevs = d.dev_num :: st.cdevs
        ∧ lenv.device_num_base ≤ d.dev_num
        ∧ d.dev_num < lenv.device_num_base + PcdPlatform.MAX_DEV_SUPPORT := by
  have hinit : (PcdPlatform.pcd_platform_driver_init lenv st0).region
        = some (lenv.device_num_base, PcdPlatform.MAX_DEV_SUPPORT)
      ∧ (PcdPlatform.pcd_platform_driver_init lenv st0).st.pcdrv_data.device_num_base
        = lenv.device_num_base := by
    unfold PcdPlatform.pcd_platform_driver_init at hload ⊢
    by_cases ha : lenv.alloc_chrdev_region < 0
    · simp only [ha, if_true] at hload
      omega
    · by_cases hc : PcdPlatform.IS_ERR lenv.class_create = true
      · simp only [ha, hc, if_true, if_false] at hload
        have hneg : to_int lenv.class_create < 0 := by
          unfold PcdPlatform.IS_ERR at hc
          have h1 := of_decide_eq_true hc
          unfold to_int
          omega
        omega
      · simp only [ha, hc, if_false]
        exact ⟨rfl, rfl⟩
  obtain ⟨d, hd, hn, hcd, _⟩ := PcdPlatform.probe_success env st pdev h
  refine ⟨hinit.1, d, hd, hcd, ?_⟩
  rw [hn, hbase, hinit.2]
  unfold PcdPlatform.to_dev_t
  unfold PcdPlatform.MAX_DEV_SUPPORT at hfit hid1 ⊢
  omega

/-- Witness of claim C17: the platform device with id 3 after a successful
load with first device number 265289728. -/
theorem probe_number_in_reserved_range_witness :
    (PcdPlatform.pcd_platform_driver_init ⟨0, 265289728, 1000⟩ ⟨⟨0, 0, 0, 0⟩, [], []⟩).region
        = some (265289728, PcdPlatform.MAX_DEV_SUPPORT)
      ∧ ∃ d, (PcdPlatform.pcd_platform_driver_probe ⟨true, true, 0, 2000⟩
          (PcdPlatform.pcd_platform_driver_init ⟨0, 265289728, 1000⟩ ⟨⟨0, 0, 0, 0⟩, [], []⟩).st
          ⟨3, some ⟨512, PcdPlatform.RDWR, "PCDEV-D"⟩, none, []⟩).pdev.driver_data = some d
        ∧ (PcdPlatform.pcd_platform_driver_probe ⟨true, true, 0, 2000⟩
          (PcdPlatform.pcd_platform_driver_init ⟨0, 265289728, 1000⟩ ⟨⟨0, 0, 0, 0⟩, [], []⟩).st
          ⟨3, some ⟨512, PcdPlatform.RDWR, "PCDEV-D"⟩, none, []⟩).st.cdevs
            = d.dev_num :: (PcdPlatform.pcd_platform_driver_init ⟨0, 265289728, 1000⟩
                ⟨⟨0, 0, 0, 0⟩, [], []⟩).st.cdevs
        ∧ 265289728 ≤ d.dev_num
        ∧ d.dev_num < 265289728 + PcdPlatform.MAX_DEV_SUPPORT :=
  probe_number_in_reserved_range ⟨0, 265289728, 1000⟩ ⟨⟨0, 0, 0, 0⟩, [], []⟩
    (PcdPlatform.pcd_platform_driver_init ⟨0, 265289728, 1000⟩ ⟨⟨0, 0, 0, 0⟩, [], []⟩).st
    ⟨true, true, 0, 2000⟩ ⟨3, some ⟨512, PcdPlatform.RDWR, "PCDEV-D"⟩, none, []⟩
    (by decide) rfl (by decide) (by decide) (by decide) (by decide)

/-- Counterexample to claim C17 as stated: after a successful load that
reserves the ten numbers from 265289728, the probe of the platform device with
id 10 succeeds and registers the number 265289738, and the probe of the
platform device with id -1 succeeds and registers the number 265289727; both
numbers lie outside the reserved range. -/
theorem probe_registers_number_outside_reserved_range :
    (PcdPlatform.pcd_platform_driver_init ⟨0, 265289728, 1000⟩ ⟨⟨0, 0, 0, 0⟩, [], []⟩).ret = 0
    ∧ (PcdPlatform.pcd_platform_driver_init ⟨0, 265289728, 1000⟩ ⟨⟨0, 0, 0, 0⟩, [], []⟩).region
        = some (265289728, 10)
    ∧ (PcdPlatform.pcd_platform_driver_probe ⟨true, true, 0, 2000⟩
        (PcdPlatform.pcd_platform_driver_init ⟨0, 265289728, 1000⟩ ⟨⟨0, 0, 0, 0⟩, [], []⟩).st
        ⟨10, some ⟨512, PcdPlatform.RDWR, "PCDEV-K"⟩, none, []⟩).ret = 0
    ∧ (PcdPlatform.pcd_platform_driver_probe ⟨true, true, 0, 2000⟩
        (PcdPlatform.pcd_platform_driver_init ⟨0, 265289728, 1000⟩ ⟨⟨0, 0, 0, 0⟩, [], []⟩).st
        ⟨10, some ⟨512, PcdPlatform.RDWR, "PCDEV-K"⟩, none, []⟩).st.cdevs = [265289738]
    ∧ (PcdPlatform.pcd_platform_driver_probe ⟨true, true, 0, 2000⟩
        (PcdPlatform.pcd_platform_driver_init ⟨0, 265289728, 1000⟩ ⟨⟨0, 0, 0, 0⟩, [], []⟩).st
        ⟨-1, some ⟨512, PcdPlatform.RDWR, "PCDEV-K"⟩, none, []⟩).ret = 0
    ∧ (PcdPlatform.pcd_platform_driver_probe ⟨true, true, 0, 2000⟩
        (PcdPlatform.pcd_platform_driver_init ⟨0, 265289728, 1000⟩ ⟨⟨0, 0, 0, 0⟩, [], []⟩).st
        ⟨-1, some ⟨512, PcdPlatform.RDWR, "PCDEV-K"⟩, none, []⟩).st.cdevs = [265289727] := by
  decide

/-! ## Agreement of the three copies of the I/O engine -/

/-- Claim C19: on a device of size 512 whose buffer is `mem`, `pcd_lseek`,
`pcd_read` and `pcd_write` of the multi-device driver and of the platform
driver return, for all arguments, the same result (return value, file
position, buffer) as the functions of the single-device driver on the array
`mem`; for a buffer of 512 bytes and every position in `[0, 512]` the read and
the write are defined. -/
theorem io_engine_copies_agree (dn : PcdN.pcdev_priv_data)
    (dp : PcdPlatform.pcdev_priv_data) (mem : List Byte)
    (hn : dn.size = 512) (hnb : dn.buffer = some mem)
    (hp : dp.pdata.size = 512) (hpb : dp.buffer = some mem) :
    (∀ f_pos off whence : Int,
        PcdN.pcd_lseek dn f_pos off whence = Pcd.pcd_lseek f_pos off whence
        ∧ PcdPlatform.pcd_lseek dp f_pos off whence = Pcd.pcd_lseek f_pos off whence)
    ∧ (∀ (buff count : Nat) (f_pos : Int),
        PcdN.pcd_read dn buff count f_pos = Pcd.pcd_read mem buff count f_pos
        ∧ PcdPlatform.pcd_read dp buff count f_pos = Pcd.pcd_read mem buff count f_pos)
    ∧ (∀ (buff : List Byte) (count : Nat) (f_pos : Int),
        PcdN.pcd_write dn buff count f_pos = Pcd.pcd_write mem buff count f_pos
        ∧ PcdPlatform.pcd_write dp buff count f_pos = Pcd.pcd_write mem buff count f_pos)
    ∧ (mem.length = 512 → ∀ (ubuf : List Byte) (buff count : Nat) (f_pos : Int),
        0 ≤ f_pos → f_pos ≤ 512 → count < SIZE_LIMIT →
        (∃ r, Pcd.pcd_read mem buff count f_pos = some r)
        ∧ ∃ w, Pcd.pcd_write mem ubuf count f_pos = some w) := by
  refine ⟨?_, ?_, ?_, ?_⟩
  · intro f_pos off whence
    exact ⟨(PcdN.pcd_lseek_eq_platform dn f_pos off whence).trans
        (Pcd.pcd_lseek_eq_platform_512 _ f_pos off whence hn),
      Pcd.pcd_lseek_eq_platform_512 dp f_pos off whence hp⟩
  · intro buff count f_pos
    exact ⟨(PcdN.pcd_read_eq_platform dn buff count f_pos).trans
        (Pcd.pcd_read_eq_platform_512 _ mem buff count f_pos hn hnb),
      Pcd.pcd_read_eq_platform_512 dp mem buff count f_pos hp hpb⟩
  · intro buff count f_pos
    exact ⟨(PcdN.pcd_write_eq_platform dn buff count f_pos).trans
        (Pcd.pcd_write_eq_platform_512 _ mem buff count f_pos hn hnb),
      Pcd.pcd_write_eq_platform_512 dp mem buff count f_pos hp hpb⟩
  · intro hl ubuf buff count f_pos h0 h1 hc
    have hs : dp.pdata.size < UINT_LIMIT := by rw [hp]; decide
    have hl1 : mem.length = dp.pdata.size := by rw [hp]; exact hl
    have h2 : f_pos ≤ (dp.pdata.size : Int) := by rw [hp]; exact h1
    obtain ⟨r, hr, _⟩ := PcdPlatform.pcd_read_step dp mem buff count f_pos hpb hl1 hs h0 h2 hc
    obtain ⟨w, hw, _⟩ := PcdPlatform.pcd_write_step dp mem ubuf count f_pos hpb hl1 hs h0 h2 hc
    rw [Pcd.pcd_read_eq_platform_512 dp mem buff count f_pos hp hpb] at hr
    rw [Pcd.pcd_write_eq_platform_512 dp mem ubuf count f_pos hp hpb] at hw
    exact ⟨⟨r, hr⟩, ⟨w, hw⟩⟩

/-- Witness of claim C19: device 1 of the multi-device driver (size 512) and a
platform device of size 512, both with the 512 zero bytes of a fresh
buffer. -/
theorem io_engine_copies_agree_witness :
    PcdN.pcd_lseek ⟨some (List.replicate 512 0), 512, "PCDDEV0001", PcdN.WRONLY, ⟨false, false, 0, 0⟩⟩
        0 512 SEEK_SET = Pcd.pcd_lseek 0 512 SEEK_SET
    ∧ PcdPlatform.pcd_write ⟨⟨512, PcdPlatform.RDWR, "PCDEV-A"⟩, some (List.replicate 512 0), 0,
        ⟨false, false, 0, 0⟩⟩ [65, 66, 67] 3 510
        = Pcd.pcd_write (List.replicate 512 0) [65, 66, 67] 3 510
    ∧ PcdN.pcd_read ⟨some (List.replicate 512 0), 512, "PCDDEV0001", PcdN.WRONLY, ⟨false, false, 0, 0⟩⟩
        8 8 508 = Pcd.pcd_read (List.replicate 512 0) 8 8 508 :=
  ⟨((io_engine_copies_agree
      ⟨some (List.replicate 512 0), 512, "PCDDEV0001", PcdN.WRONLY, ⟨false, false, 0, 0⟩⟩
      ⟨⟨512, PcdPlatform.RDWR, "PCDEV-A"⟩, some (List.replicate 512 0), 0, ⟨false, false, 0, 0⟩⟩
      (List.replicate 512 0) rfl rfl rfl rfl).1 0 512 SEEK_SET).1,
    ((io_engine_copies_agree
      ⟨some (List.replicate 512 0), 512, "PCDDEV0001", PcdN.WRONLY, ⟨false, false, 0, 0⟩⟩
      ⟨⟨512, PcdPlatform.RDWR, "PCDEV-A"⟩, some (List.replicate 512 0), 0, ⟨false, false, 0, 0⟩⟩
      (List.replicate 512 0) rfl rfl rfl rfl).2.2.1 [65, 66, 67] 3 510).2,
    ((io_engine_copies_agree
      ⟨some (List.replicate 512 0), 512, "PCDDEV0001", PcdN.WRONLY, ⟨false, false, 0, 0⟩⟩
      ⟨⟨512, PcdPlatform.RDWR, "PCDEV-A"⟩, some (List.replicate 512 0), 0, ⟨false, false, 0, 0⟩⟩
      (List.replicate 512 0) rfl rfl rfl rfl).2.1 8 8 508).1⟩
